import Mathlib

/-!
Verification of the Model Registry + Caching + Multi-Backend Fallback Dispatch
subsystem of cubestudio (src/unified_backend_service.py), as a shallow
embedding in Lean 4.

Modelling conventions:
* Python dicts are insertion-ordered association lists (`List (String × α)`)
  with unique keys; `alistLookup`, `alistInsert` (overwrite-in-place or
  append), `alistErase` reproduce dict semantics.
* `datetime.datetime.now()` is a strictly increasing counter (`Registry.clock`);
  `datetime.datetime.min` is modelled by `Option Nat` with `none` ordered
  below every `some t` (a descriptor that was never used has
  `last_used = None` in the Python code).
* Exceptions are values of `PyExc`; a function that can raise returns
  `Except PyExc α` paired with the state reached when the exception escapes
  (Python mutations performed before a raise persist).
* External effects (the filesystem, torch/onnxruntime/safetensors import
  success, and the pixel-level transform routines, which the spec places out
  of scope) are oracles in an `Env` record. A leaf transform either raises
  (when the oracle says so) or returns an image tagged with the backend whose
  pipeline computed it; this tag is ghost instrumentation used only to state
  claims about which backend actually produced a result.
* Dispatch attempts made by the orchestrator and the fallback executor are
  recorded in a ghost trace of `Attempt` values, used only to state claims
  about which (model id, backend, processor type) dispatches were attempted.
-/

set_option maxHeartbeats 1000000
set_option linter.unnecessarySeqFocus false

namespace CubeStudio

/-- Enum ProcessorType from unified_backend_service.py. -/
inductive ProcType
  | edgeDetection
  | softEdge
  | lineartType
  | depthEstimation
  | normalMap
  | poseEstimation
  | segmentationType
  | mlsdType
  | scribbleType
  | colorType
  | shuffleType
  | thresholdType
  | inpaintType
  | clipVision
  | referenceType
  | tileType
  | recolorType
  | revisionType
  deriving DecidableEq, Repr

/-- Enum ModelStatus from unified_backend_service.py. -/
inductive ModelStatus
  | available
  | loading
  | loaded
  | errorStatus
  | notFound
  deriving DecidableEq, Repr

/-- Enum ProcessingBackend from unified_backend_service.py. -/
inductive Backend
  | pytorch
  | opencv
  | builtin
  | onnx
  | safetensors
  deriving DecidableEq, Repr

/-- The .value string of a ProcessingBackend member. -/
def Backend.value : Backend → String
  | .pytorch => "pytorch"
  | .opencv => "opencv"
  | .builtin => "builtin"
  | .onnx => "onnx"
  | .safetensors => "safetensors"

/-- Dataclass ModelInfo (the model descriptor). Fields that no modelled code
path ever reads (preview_image, description, parameters) are omitted;
file_path is the path rendered as a string. -/
structure ModelInfo where
  id : String
  name : String
  file_path : Option String := none
  processor_type : ProcType := .edgeDetection
  backend : Backend := .pytorch
  status : ModelStatus := .available
  size : Option Nat := none
  fallback_models : List String := []
  last_used : Option Nat := none
  load_count : Nat := 0
  error_message : Option String := none
  deriving DecidableEq, Repr

/-- Cache statistics dict of ModelRegistry. -/
structure CacheStats where
  hits : Nat
  misses : Nat
  evictions : Nat
  total_loaded : Nat
  deriving DecidableEq, Repr

/-- A loaded model handle: either the sentinel string returned for
builtin/opencv backends, or a loaded PyTorch module identified by an
allocation number (object identity). -/
inductive Handle
  | sentinel (s : String)
  | torch (objId : Nat)
  deriving DecidableEq, Repr

/-- Python exceptions raised by the modelled code. -/
inductive PyExc
  | valueError (msg : String)
  | runtimeError (msg : String)
  | fileNotFoundError (msg : String)
  | unboundLocalError (var : String)
  | pipelineError (msg : String)
  deriving DecidableEq, Repr

/-- The str() rendering of an exception, as used for logging and for the
error field of a response. -/
def PyExc.message : PyExc → String
  | .valueError m => m
  | .runtimeError m => m
  | .fileNotFoundError m => m
  | .unboundLocalError v =>
      "local variable " ++ v ++ " referenced before assignment"
  | .pipelineError m => m

/-- Lookup in an insertion-ordered association list (Python dict read). -/
def alistLookup {α : Type} (l : List (String × α)) (k : String) : Option α :=
  match l with
  | [] => none
  | (k1, v) :: rest => if k1 = k then some v else alistLookup rest k

/-- Write to an insertion-ordered association list (Python dict write):
overwrite in place if the key is present, else append at the end. -/
def alistInsert {α : Type} (l : List (String × α)) (k : String) (v : α) :
    List (String × α) :=
  match l with
  | [] => [(k, v)]
  | (k1, v1) :: rest =>
      if k1 = k then (k1, v) :: rest else (k1, v1) :: alistInsert rest k v

/-- Delete a key from an association list (Python del). Keys are unique in
every reachable state, so dropping every entry with the key is the same as
removing the one entry. -/
def alistErase {α : Type} (l : List (String × α)) (k : String) :
    List (String × α) :=
  match l with
  | [] => []
  | (k1, v) :: rest =>
      if k1 = k then alistErase rest k else (k1, v) :: alistErase rest k

/-- Keys of an association list in iteration order. -/
def alistKeys {α : Type} (l : List (String × α)) : List String :=
  l.map (fun p => p.1)

/-- The ModelRegistry state: the descriptor table, the bounded model cache,
the statistics counters, plus the ghost clock and handle allocator. -/
structure Registry where
  models : List (String × ModelInfo)
  model_cache : List (String × Handle)
  cache_stats : CacheStats
  max_cache_size : Nat
  clock : Nat
  next_obj : Nat
  deriving DecidableEq, Repr

/-- A PIL image, abstracted to its dimensions plus a ghost tag recording
which backend pipeline computed it (none for a freshly decoded input). -/
structure Img where
  width : Nat
  height : Nat
  produced_by : Option Backend := none
  deriving DecidableEq, Repr

/-- External world: filesystem, optional runtimes, and the out-of-scope
pixel-level transform routines, as oracles. pipeline_ok b mid tells whether
the leaf transform of backend b applied for model mid returns normally;
pipeline_msg gives the exception text when it raises. -/
structure Env where
  pytorch_available : Bool
  onnxruntime_available : Bool
  safetensors_available : Bool
  file_on_disk : String → Bool
  file_size : String → Nat
  torch_load_ok : String → Bool
  torch_load_msg : String → String
  pipeline_ok : Backend → String → Bool
  pipeline_msg : Backend → String → String
  decode_image : String → Option Img
  save_outcome : Except PyExc (Option String)

/-- The path string PREPROCESSORS_PATH / name. -/
def prep (fileName : String) : Option String :=
  some ("models/preprocessors/" ++ fileName)

/-- The fixed in-code model catalog built by ModelRegistry._initialize_models,
in dict insertion order (edge, depth, lineart, soft edge, scribble, mlsd,
normal, segmentation, pose, specialized, additional). -/
def initialModels : List (String × ModelInfo) :=
  [ ("builtin_canny",
     { id := "builtin_canny", name := "Built-in Canny Edge Detection",
       processor_type := .edgeDetection, backend := .builtin }),
    ("opencv_canny",
     { id := "opencv_canny", name := "OpenCV Canny",
       processor_type := .edgeDetection, backend := .opencv,
       fallback_models := ["builtin_canny"] }),
    ("network-bsds500",
     { id := "network-bsds500", name := "HED Edge Detection",
       file_path := prep "network-bsds500.pth",
       processor_type := .edgeDetection, backend := .pytorch,
       fallback_models := ["opencv_canny", "builtin_canny"] }),
    ("table5_pidinet",
     { id := "table5_pidinet", name := "PiDiNet Edge Detection",
       file_path := prep "table5_pidinet.pth",
       processor_type := .edgeDetection, backend := .pytorch,
       fallback_models := ["opencv_canny", "builtin_canny"] }),
    ("builtin_depth",
     { id := "builtin_depth", name := "Built-in Depth (JavaScript)",
       processor_type := .depthEstimation, backend := .builtin }),
    ("dpt_hybrid",
     { id := "dpt_hybrid", name := "DPT-Hybrid MiDaS",
       file_path := prep "dpt_hybrid-midas-501f0c75.pt",
       processor_type := .depthEstimation, backend := .pytorch,
       fallback_models := ["builtin_depth"] }),
    ("midas_v21",
     { id := "midas_v21", name := "MiDaS v2.1",
       file_path := prep "midas_v21_384.pt",
       processor_type := .depthEstimation, backend := .pytorch,
       fallback_models := ["builtin_depth"] }),
    ("zoedepth",
     { id := "zoedepth", name := "ZoeDepth",
       file_path := prep "ZoeD_M12_N.pt",
       processor_type := .depthEstimation, backend := .pytorch,
       fallback_models := ["builtin_depth"] }),
    ("depth_anything",
     { id := "depth_anything", name := "Depth Anything",
       file_path := prep "depth_anything_vitl14.pth",
       processor_type := .depthEstimation, backend := .pytorch,
       fallback_models := ["builtin_depth"] }),
    ("depth_anything_v2",
     { id := "depth_anything_v2", name := "Depth Anything v2",
       file_path := prep "depth_anything_v2_vitl.pth",
       processor_type := .depthEstimation, backend := .pytorch,
       fallback_models := ["depth_anything", "builtin_depth"] }),
    ("depth_leres",
     { id := "depth_leres", name := "LeReS Depth",
       file_path := prep "res101.pth",
       processor_type := .depthEstimation, backend := .pytorch,
       fallback_models := ["builtin_depth"] }),
    ("depth_leres_boost",
     { id := "depth_leres_boost", name := "LeReS Depth (Boosted)",
       file_path := prep "res101.pth",
       processor_type := .depthEstimation, backend := .pytorch,
       fallback_models := ["depth_leres", "builtin_depth"] }),
    ("builtin_lineart",
     { id := "builtin_lineart", name := "Built-in Lineart",
       processor_type := .lineartType, backend := .builtin }),
    ("lineart_standard",
     { id := "lineart_standard", name := "Standard Lineart",
       processor_type := .lineartType, backend := .opencv,
       fallback_models := ["builtin_lineart"] }),
    ("lineart_realistic",
     { id := "lineart_realistic", name := "Realistic Lineart",
       file_path := prep "sk_model.pth",
       processor_type := .lineartType, backend := .pytorch,
       fallback_models := ["lineart_standard", "builtin_lineart"] }),
    ("lineart_coarse",
     { id := "lineart_coarse", name := "Coarse Lineart",
       file_path := prep "sk_model2.pth",
       processor_type := .lineartType, backend := .pytorch,
       fallback_models := ["lineart_standard", "builtin_lineart"] }),
    ("lineart_anime",
     { id := "lineart_anime", name := "Anime Lineart",
       file_path := prep "netG.pth",
       processor_type := .lineartType, backend := .pytorch,
       fallback_models := ["lineart_standard", "builtin_lineart"] }),
    ("lineart_anime_denoise",
     { id := "lineart_anime_denoise", name := "Anime Lineart (Denoise)",
       file_path := prep "erika.pth",
       processor_type := .lineartType, backend := .pytorch,
       fallback_models :=
         ["lineart_anime", "lineart_standard", "builtin_lineart"] }),
    ("pidinet_softedge",
     { id := "pidinet_softedge", name := "PiDiNet Soft Edge",
       file_path := prep "table5_pidinet.pth",
       processor_type := .softEdge, backend := .pytorch,
       fallback_models := ["opencv_canny", "builtin_canny"] }),
    ("pidinet_safe",
     { id := "pidinet_safe", name := "PiDiNet Safe Mode",
       file_path := prep "table5_pidinet.pth",
       processor_type := .softEdge, backend := .pytorch,
       fallback_models :=
         ["pidinet_softedge", "opencv_canny", "builtin_canny"] }),
    ("hed_softedge",
     { id := "hed_softedge", name := "HED Soft Edge",
       file_path := prep "ControlNetHED.pth",
       processor_type := .softEdge, backend := .pytorch,
       fallback_models := ["opencv_canny", "builtin_canny"] }),
    ("hed_safe",
     { id := "hed_safe", name := "HED Safe Mode",
       file_path := prep "ControlNetHED.pth",
       processor_type := .softEdge, backend := .pytorch,
       fallback_models := ["hed_softedge", "opencv_canny", "builtin_canny"] }),
    ("scribble_hed",
     { id := "scribble_hed", name := "HED Scribble",
       file_path := prep "ControlNetHED.pth",
       processor_type := .scribbleType, backend := .pytorch,
       fallback_models := ["opencv_canny", "builtin_canny"] }),
    ("scribble_pidinet",
     { id := "scribble_pidinet", name := "PiDiNet Scribble",
       file_path := prep "table5_pidinet.pth",
       processor_type := .scribbleType, backend := .pytorch,
       fallback_models := ["scribble_hed", "opencv_canny", "builtin_canny"] }),
    ("scribble_xdog",
     { id := "scribble_xdog", name := "XDoG Scribble",
       processor_type := .scribbleType, backend := .opencv,
       fallback_models := ["builtin_canny"] }),
    ("mlsd",
     { id := "mlsd", name := "Mobile Line Segment Detection",
       file_path := prep "mlsd_large_512_fp32.pth",
       processor_type := .mlsdType, backend := .pytorch,
       fallback_models := ["opencv_canny", "builtin_canny"] }),
    ("normal_bae",
     { id := "normal_bae", name := "Normal BAE",
       file_path := prep "scannet.pt",
       processor_type := .normalMap, backend := .pytorch,
       fallback_models := ["builtin_depth"] }),
    ("normal_midas",
     { id := "normal_midas", name := "MiDaS Normal",
       file_path := prep "midas_v21_384.pt",
       processor_type := .normalMap, backend := .pytorch,
       fallback_models := ["normal_bae", "builtin_depth"] }),
    ("seg_anime_face",
     { id := "seg_anime_face", name := "Anime Face Segmentation",
       file_path := prep "face_parsing.farl.lapa.main_ema_136500_jit191.pt",
       processor_type := .segmentationType, backend := .pytorch,
       fallback_models := ["builtin_depth"] }),
    ("seg_ofade20k",
     { id := "seg_ofade20k", name := "OneFormer ADE20K",
       file_path := prep "oneformer_ade20k_dinat_large.pth",
       processor_type := .segmentationType, backend := .pytorch,
       fallback_models := ["builtin_depth"] }),
    ("seg_ofcoco",
     { id := "seg_ofcoco", name := "OneFormer COCO",
       file_path := prep "oneformer_coco_dinat_large.pth",
       processor_type := .segmentationType, backend := .pytorch,
       fallback_models := ["seg_ofade20k", "builtin_depth"] }),
    ("seg_ufade20k",
     { id := "seg_ufade20k", name := "Uniformer Segmentation",
       file_path := prep "upernet_global_small.pth",
       processor_type := .segmentationType, backend := .pytorch,
       fallback_models := ["builtin_depth"] }),
    ("openpose_full",
     { id := "openpose_full", name := "OpenPose Full (Body+Hand+Face)",
       file_path := prep "body_pose_model.pth",
       processor_type := .poseEstimation, backend := .pytorch,
       fallback_models := ["builtin_depth"] }),
    ("openpose_face",
     { id := "openpose_face", name := "OpenPose Face Only",
       file_path := prep "facenet.pth",
       processor_type := .poseEstimation, backend := .pytorch,
       fallback_models := ["builtin_depth"] }),
    ("openpose_faceonly",
     { id := "openpose_faceonly", name := "OpenPose Face Only (Optimized)",
       file_path := prep "facenet.pth",
       processor_type := .poseEstimation, backend := .pytorch,
       fallback_models := ["openpose_face", "builtin_depth"] }),
    ("openpose_hand",
     { id := "openpose_hand", name := "OpenPose Hand Only",
       file_path := prep "hand_pose_model.pth",
       processor_type := .poseEstimation, backend := .pytorch,
       fallback_models := ["builtin_depth"] }),
    ("dwpose",
     { id := "dwpose", name := "DWPose Wholebody",
       file_path := prep "yolox_l.onnx",
       processor_type := .poseEstimation, backend := .onnx,
       fallback_models := ["openpose_full", "builtin_depth"] }),
    ("animal_openpose",
     { id := "animal_openpose", name := "Animal OpenPose",
       file_path :=
         prep "rtmpose-m_simcc-ap10k_pt-aic-coco_210e-256x256-7a041aa1_20230206.onnx",
       processor_type := .poseEstimation, backend := .onnx,
       fallback_models := ["builtin_depth"] }),
    ("shuffle",
     { id := "shuffle", name := "Content Shuffle",
       processor_type := .shuffleType, backend := .opencv }),
    ("color",
     { id := "color", name := "Color Extraction",
       processor_type := .colorType, backend := .opencv }),
    ("threshold",
     { id := "threshold", name := "Binary Threshold",
       processor_type := .thresholdType, backend := .opencv }),
    ("tile",
     { id := "tile", name := "Tile Processing",
       processor_type := .tileType, backend := .builtin }),
    ("inpaint_global_harmonious",
     { id := "inpaint_global_harmonious", name := "Inpaint Global Harmonious",
       file_path := prep "big-lama.pt",
       processor_type := .inpaintType, backend := .pytorch,
       fallback_models := ["threshold"] }),
    ("inpaint_only",
     { id := "inpaint_only", name := "Inpaint Only",
       processor_type := .inpaintType, backend := .opencv }),
    ("inpaint_only+lama",
     { id := "inpaint_only+lama", name := "Inpaint Only + LaMa",
       file_path := prep "big-lama.pt",
       processor_type := .inpaintType, backend := .pytorch,
       fallback_models := ["inpaint_only"] }),
    ("clip_vision",
     { id := "clip_vision", name := "CLIP Vision",
       file_path := prep "clip_vision_model.safetensors",
       processor_type := .clipVision, backend := .safetensors,
       fallback_models := ["color"] }),
    ("reference_only",
     { id := "reference_only", name := "Reference Only",
       processor_type := .referenceType, backend := .builtin }),
    ("reference_adain",
     { id := "reference_adain", name := "Reference AdaIN",
       processor_type := .referenceType, backend := .builtin,
       fallback_models := ["reference_only"] }),
    ("reference_adain+attn",
     { id := "reference_adain+attn", name := "Reference AdaIN + Attention",
       processor_type := .referenceType, backend := .builtin,
       fallback_models := ["reference_adain", "reference_only"] }),
    ("recolor_luminance",
     { id := "recolor_luminance", name := "Recolor Luminance",
       processor_type := .recolorType, backend := .opencv,
       fallback_models := ["color"] }),
    ("recolor_intensity",
     { id := "recolor_intensity", name := "Recolor Intensity",
       processor_type := .recolorType, backend := .opencv,
       fallback_models := ["recolor_luminance", "color"] }),
    ("revision_clipvision",
     { id := "revision_clipvision", name := "Revision CLIP Vision",
       file_path := prep "clip_vision_model.safetensors",
       processor_type := .revisionType, backend := .safetensors,
       fallback_models := ["clip_vision", "color"] }),
    ("revision_ignore_prompt",
     { id := "revision_ignore_prompt", name := "Revision Ignore Prompt",
       processor_type := .revisionType, backend := .builtin,
       fallback_models := ["revision_clipvision"] }),
    ("normal_dsine",
     { id := "normal_dsine", name := "Normal Dsine",
       file_path := prep "dsine.pt",
       processor_type := .normalMap, backend := .pytorch,
       fallback_models := ["normal_bae", "builtin_depth"] }),
    ("teed",
     { id := "teed", name := "TEED Edge Detection",
       file_path := prep "7_model.pth",
       processor_type := .edgeDetection, backend := .pytorch,
       fallback_models :=
         ["table5_pidinet", "opencv_canny", "builtin_canny"] }),
    ("manga_line",
     { id := "manga_line", name := "Manga Line",
       file_path := prep "erika.pth",
       processor_type := .lineartType, backend := .pytorch,
       fallback_models :=
         ["lineart_anime", "lineart_standard", "builtin_lineart"] }),
    ("mobile_sam",
     { id := "mobile_sam", name := "Mobile SAM",
       file_path := prep "mobile_sam.pt",
       processor_type := .segmentationType, backend := .pytorch,
       fallback_models := ["seg_ofcoco", "builtin_depth"] }),
    ("sam",
     { id := "sam", name := "Segment Anything Model",
       file_path := prep "sam_vit_h_4b8939.pth",
       processor_type := .segmentationType, backend := .pytorch,
       fallback_models := ["mobile_sam", "seg_ofcoco", "builtin_depth"] }) ]

/-- The str() rendering of an Optional[str] value, as Python f-strings do. -/
def optionStr : Option String → String
  | none => "None"
  | some s => s

/-- The per-descriptor body of ModelRegistry._check_model_availability:
builtin/opencv backends are always available; otherwise the descriptor is
available (with its file size recorded) exactly when its file path is set and
exists on disk, and not_found (with a diagnostic message) otherwise. -/
def checkOne (env : Env) (mi : ModelInfo) : ModelInfo :=
  if mi.backend = .builtin ∨ mi.backend = .opencv then
    { mi with status := .available }
  else
    match mi.file_path with
    | some fp =>
        if env.file_on_disk fp then
          { mi with status := .available, size := some (env.file_size fp) }
        else
          { mi with
            status := .notFound
            error_message := some ("Model file not found: " ++ fp) }
    | none =>
        { mi with
          status := .notFound
          error_message := some ("Model file not found: " ++ optionStr none) }

/-- ModelRegistry._check_model_availability: probe every descriptor. -/
def checkModelAvailability (env : Env) (reg : Registry) : Registry :=
  { reg with models := reg.models.map (fun p => (p.1, checkOne env p.2)) }

/-- The ModelRegistry state right before the availability probe runs: the
catalog, an empty cache, zeroed statistics, max_cache_size = 5. -/
def baseRegistry : Registry :=
  { models := initialModels
    model_cache := []
    cache_stats := { hits := 0, misses := 0, evictions := 0, total_loaded := 0 }
    max_cache_size := 5
    clock := 1
    next_obj := 0 }

/-- A freshly constructed ModelRegistry: baseRegistry followed by the
availability probe (as run at the end of _initialize_models). -/
def mkRegistry (env : Env) : Registry :=
  checkModelAvailability env baseRegistry

/-- Mutate the descriptor stored under a key (Python field assignment on
self.models entries; keys are unique in every reachable state). -/
def updateModelInfo (reg : Registry) (mid : String) (f : ModelInfo → ModelInfo) :
    Registry :=
  { reg with
    models := reg.models.map (fun p => (p.1, if p.1 = mid then f p.2 else p.2)) }

/-- Strict comparison of datetime values where none stands for
datetime.datetime.min (used as the LRU sort key). -/
def optLt : Option Nat → Option Nat → Bool
  | none, none => false
  | none, some _ => true
  | some _, none => false
  | some a, some b => a < b

/-- Reflexive comparison of datetime values where none is datetime.min. -/
def optLe (x y : Option Nat) : Bool := !(optLt y x)

/-- Python min over a nonempty sequence with a key function: scan left to
right and replace the current best only on a strictly smaller key, so the
first occurrence of the minimal key wins. -/
def pyFoldMin (f : String → Option Nat) (acc : String) : List String → String
  | [] => acc
  | y :: ys => pyFoldMin f (if optLt (f y) (f acc) then y else acc) ys

/-- The LRU key of a cached model id:
self.models[mid].last_used or datetime.datetime.min. -/
def lruKeyOf (reg : Registry) (mid : String) : Option Nat :=
  match alistLookup reg.models mid with
  | some mi => mi.last_used
  | none => none

/-- ModelRegistry._evict_least_used: drop the cached id whose descriptor has
the oldest (or absent) last_used, reset that descriptor to available, and
count the eviction. No-op on an empty cache. -/
def evictLeastUsed (reg : Registry) : Registry :=
  match alistKeys reg.model_cache with
  | [] => reg
  | k :: ks =>
      let lru := pyFoldMin (lruKeyOf reg) k ks
      let reg1 := { reg with model_cache := alistErase reg.model_cache lru }
      let reg2 := updateModelInfo reg1 lru (fun mi => { mi with status := .available })
      { reg2 with
        cache_stats :=
          { reg2.cache_stats with evictions := reg2.cache_stats.evictions + 1 } }

/-- The model ids that the architecture selection chain of
ModelRegistry.load_model knows how to construct; any other id reaches the
raise ValueError branch inside the try block. -/
def knownTorchArchitecture (mid : String) : Bool :=
  ([ "dpt_hybrid", "midas_v21", "zoedepth",
     "network-bsds500", "hed_softedge", "hed_safe", "scribble_hed",
     "table5_pidinet", "pidinet_softedge", "pidinet_safe", "scribble_pidinet",
     "depth_anything", "depth_anything_v2",
     "depth_leres", "depth_leres_boost",
     "lineart_realistic", "lineart_coarse",
     "lineart_anime", "lineart_anime_denoise",
     "mlsd", "normal_bae", "normal_midas",
     "seg_anime_face", "seg_ofade20k", "seg_ufade20k",
     "seg_ofcoco" ] : List String).contains mid

/-- ModelRegistry.load_model. Returns the handle (or the escaping exception)
together with the registry state after the call; states mutated before a
raise persist, as in Python. -/
def loadModel (env : Env) (reg : Registry) (mid : String) :
    Except PyExc Handle × Registry :=
  match alistLookup reg.models mid with
  | none =>
      (.error (.valueError ("Model " ++ mid ++ " not found in registry")), reg)
  | some mi =>
    match alistLookup reg.model_cache mid with
    | some h =>
        let reg1 :=
          { reg with cache_stats :=
              { reg.cache_stats with hits := reg.cache_stats.hits + 1 } }
        let now := reg1.clock
        let reg2 := { reg1 with clock := now + 1 }
        let reg3 := updateModelInfo reg2 mid (fun m =>
          { m with last_used := some now, load_count := m.load_count + 1 })
        (.ok h, reg3)
    | none =>
        let reg1 :=
          { reg with cache_stats :=
              { reg.cache_stats with misses := reg.cache_stats.misses + 1 } }
        if mi.backend = .builtin ∨ mi.backend = .opencv then
          let now := reg1.clock
          let reg2 := { reg1 with clock := now + 1 }
          let reg3 := updateModelInfo reg2 mid (fun m =>
            { m with
              status := .loaded
              last_used := some now
              load_count := m.load_count + 1 })
          (.ok (.sentinel (mi.backend.value ++ "_processor")), reg3)
        else if env.pytorch_available = false then
          (.error (.runtimeError "PyTorch not available for model loading"), reg1)
        else if mi.status ≠ .available then
          (.error (.fileNotFoundError
              ("Model " ++ mid ++ " is not available: "
                ++ optionStr mi.error_message)), reg1)
        else
          let reg2 := updateModelInfo reg1 mid (fun m => { m with status := .loading })
          if knownTorchArchitecture mid = false then
            let msg := "Unknown model architecture for " ++ mid
            (.error (.runtimeError ("Failed to load model " ++ mid ++ ": " ++ msg)),
             updateModelInfo reg2 mid (fun m =>
               { m with status := .errorStatus, error_message := some msg }))
          else if env.torch_load_ok mid = false then
            let msg := env.torch_load_msg mid
            (.error (.runtimeError ("Failed to load model " ++ mid ++ ": " ++ msg)),
             updateModelInfo reg2 mid (fun m =>
               { m with status := .errorStatus, error_message := some msg }))
          else
            let reg3 :=
              if reg2.max_cache_size ≤ reg2.model_cache.length then
                evictLeastUsed reg2
              else reg2
            let h := Handle.torch reg3.next_obj
            let reg4 :=
              { reg3 with
                next_obj := reg3.next_obj + 1
                model_cache := alistInsert reg3.model_cache mid h }
            let now := reg4.clock
            let reg5 := { reg4 with clock := now + 1 }
            let reg6 := updateModelInfo reg5 mid (fun m =>
              { m with
                status := .loaded
                last_used := some now
                load_count := m.load_count + 1 })
            (.ok h,
             { reg6 with cache_stats :=
                 { reg6.cache_stats with
                   total_loaded := reg6.cache_stats.total_loaded + 1 } })

/-- Apply a sequence of load_model calls to a fresh registry. -/
def runLoads (env : Env) (mids : List String) : Registry :=
  mids.foldl (fun r mid => (loadModel env r mid).2) (mkRegistry env)

/-- The .value string of a ProcessorType member. -/
def ProcType.value : ProcType → String
  | .edgeDetection => "edge_detection"
  | .softEdge => "soft_edge"
  | .lineartType => "lineart"
  | .depthEstimation => "depth_estimation"
  | .normalMap => "normal_map"
  | .poseEstimation => "pose_estimation"
  | .segmentationType => "segmentation"
  | .mlsdType => "mlsd"
  | .scribbleType => "scribble"
  | .colorType => "color"
  | .shuffleType => "shuffle"
  | .thresholdType => "threshold"
  | .inpaintType => "inpaint"
  | .clipVision => "clip_vision"
  | .referenceType => "reference"
  | .tileType => "tile"
  | .recolorType => "recolor"
  | .revisionType => "revision"

/-- Pydantic UnifiedProcessRequest (the parameters map, which the modelled
control flow never branches on, is omitted). -/
structure UnifiedProcessRequest where
  image : String
  model_id : String
  processor_type : ProcType := .edgeDetection
  backend_preference : Option Backend := none
  fallback_enabled : Bool := true
  save_result : Bool := false
  save_path : Option String := none
  deriving DecidableEq, Repr

/-- Pydantic UnifiedProcessResponse. processed_image holds the encoded output
image (the base64 payload abstracted to the Img it encodes); metadata is
omitted. -/
structure UnifiedProcessResponse where
  success : Bool
  processed_image : Option Img := none
  model_used : String
  backend_used : Backend
  processing_time_ms : Nat
  fallback_used : Bool := false
  saved_path : Option String := none
  error : Option String := none
  deriving DecidableEq, Repr

/-- Ghost record of one _process_with_backend invocation: which model id was
dispatched, with which backend argument, and the dispatched descriptor's own
processor_type. -/
structure Attempt where
  model_id : String
  backend : Backend
  processor_type : ProcType
  deriving DecidableEq, Repr

/-- A leaf transform routine of the given backend applied for the given model
id: raises when the pipeline oracle says so, else returns the image tagged
with the backend that computed it. -/
def runLeaf (env : Env) (b : Backend) (mid : String) (img : Img) :
    Except PyExc Img :=
  if env.pipeline_ok b mid then
    .ok { img with produced_by := some b }
  else
    .error (.pipelineError (env.pipeline_msg b mid))

/-- UnifiedProcessor._process_opencv: dispatch on processor_type over the
cv2-based routines; unsupported types raise ValueError. -/
def processOpencv (env : Env) (img : Img) (mi : ModelInfo) : Except PyExc Img :=
  match mi.processor_type with
  | .edgeDetection | .depthEstimation | .lineartType | .softEdge
  | .scribbleType | .mlsdType | .normalMap | .colorType | .shuffleType
  | .thresholdType | .inpaintType | .recolorType =>
      runLeaf env .opencv mi.id img
  | t =>
      .error (.valueError ("OpenCV backend doesn't support " ++ t.value))

/-- UnifiedProcessor._process_builtin: a single chain with a grayscale
catch-all, so every processor_type reaches a cv2/numpy routine. -/
def processBuiltin (env : Env) (img : Img) (mi : ModelInfo) : Except PyExc Img :=
  runLeaf env .builtin mi.id img

/-- UnifiedProcessor._process_pytorch: require torch, load the model through
the registry cache (this is the only dispatch path that touches the cache),
then run the processor-type specific pipeline. The pose pipeline catches any
failure and returns a blank canvas; the inpaint pipeline catches any failure
and delegates to _opencv_inpaint_processing; the CLIP pipeline catches any
failure and returns the input image unchanged; the remaining pipelines let
exceptions escape; processor types outside the chain raise ValueError. -/
def processPytorch (env : Env) (img : Img) (mi : ModelInfo) (reg : Registry) :
    Except PyExc Img × Registry :=
  if env.pytorch_available = false then
    (.error (.runtimeError "PyTorch not available"), reg)
  else
    match loadModel env reg mi.id with
    | (.error e, reg1) => (.error e, reg1)
    | (.ok _, reg1) =>
      match mi.processor_type with
      | .depthEstimation | .edgeDetection | .lineartType | .softEdge
      | .scribbleType | .mlsdType | .normalMap | .segmentationType =>
          (runLeaf env .pytorch mi.id img, reg1)
      | .poseEstimation =>
          (.ok { img with produced_by := some .pytorch }, reg1)
      | .inpaintType =>
          if env.pipeline_ok .pytorch mi.id then
            (.ok { img with produced_by := some .pytorch }, reg1)
          else
            (runLeaf env .opencv mi.id img, reg1)
      | .clipVision =>
          if env.pipeline_ok .pytorch mi.id then
            (.ok { img with produced_by := some .pytorch }, reg1)
          else
            (.ok img, reg1)
      | t =>
          (.error (.valueError ("Unsupported processor type: " ++ t.value)), reg1)

/-- UnifiedProcessor._process_onnx: when onnxruntime cannot be imported,
silently delegate to the OpenCV path; with onnxruntime present, only pose
estimation has an ONNX routine and every other type delegates to OpenCV. -/
def processOnnx (env : Env) (img : Img) (mi : ModelInfo) : Except PyExc Img :=
  if env.onnxruntime_available = false then
    processOpencv env img mi
  else
    match mi.processor_type with
    | .poseEstimation => runLeaf env .onnx mi.id img
    | _ => processOpencv env img mi

/-- UnifiedProcessor._process_safetensors: when safetensors cannot be
imported, silently delegate to the PyTorch path; with it present, CLIP vision
runs the safetensors routine, revision returns the input image unchanged, and
every other type delegates to PyTorch. -/
def processSafetensors (env : Env) (img : Img) (mi : ModelInfo) (reg : Registry) :
    Except PyExc Img × Registry :=
  if env.safetensors_available = false then
    processPytorch env img mi reg
  else
    match mi.processor_type with
    | .clipVision => (runLeaf env .safetensors mi.id img, reg)
    | .revisionType => (.ok img, reg)
    | _ => processPytorch env img mi reg

/-- UnifiedProcessor._process_with_backend: select the handler by backend tag
(the Python else branch for an unknown backend is unreachable over the enum). -/
def processWithBackend (env : Env) (img : Img) (mi : ModelInfo) (b : Backend)
    (reg : Registry) : Except PyExc Img × Registry :=
  match b with
  | .pytorch => processPytorch env img mi reg
  | .opencv => (processOpencv env img mi, reg)
  | .builtin => (processBuiltin env img mi, reg)
  | .onnx => (processOnnx env img mi, reg)
  | .safetensors => processSafetensors env img mi reg

/-- The loop of UnifiedProcessor._process_with_fallback over the remaining
candidate ids, carrying the registry and the ghost trace of dispatch
attempts. Candidates whose descriptor is missing or not available are
skipped; the first candidate whose dispatch (with its own declared backend)
succeeds wins; exhaustion raises RuntimeError. -/
def fallbackGo (env : Env) (img : Img) (fids : List String) (reg : Registry)
    (tr : List Attempt) :
    Except PyExc (Img × Backend) × Registry × List Attempt :=
  match fids with
  | [] => (.error (.runtimeError "All fallback options failed"), reg, tr)
  | fid :: rest =>
    match alistLookup reg.models fid with
    | none => fallbackGo env img rest reg tr
    | some fi =>
      if fi.status ≠ ModelStatus.available then
        fallbackGo env img rest reg tr
      else
        let tr1 := tr ++
          [{ model_id := fid, backend := fi.backend
             processor_type := fi.processor_type }]
        match processWithBackend env img fi fi.backend reg with
        | (.ok res, reg1) => (.ok (res, fi.backend), reg1, tr1)
        | (.error _, reg1) => fallbackGo env img rest reg1 tr1

/-- UnifiedProcessor._process_with_fallback. -/
def processWithFallback (env : Env) (img : Img) (mi : ModelInfo)
    (reg : Registry) :
    Except PyExc (Img × Backend) × Registry × List Attempt :=
  fallbackGo env img mi.fallback_models reg []

/-- The failure UnifiedProcessResponse built by the outer except handler of
process_image once the backend_used and fallback_used locals are bound. -/
def failureResponse (req : UnifiedProcessRequest) (b : Backend) (fb : Bool)
    (e : PyExc) (ms : Nat) : UnifiedProcessResponse :=
  { success := false
    model_used := req.model_id
    backend_used := b
    processing_time_ms := ms
    fallback_used := fb
    error := some (PyExc.message e) }

instance {ε α : Type} [DecidableEq ε] [DecidableEq α] :
    DecidableEq (Except ε α) := fun x y =>
  match x, y with
  | .error a, .error b =>
      if h : a = b then isTrue (congrArg Except.error h)
      else isFalse (fun hh => h (Except.error.inj hh))
  | .ok a, .ok b =>
      if h : a = b then isTrue (congrArg Except.ok h)
      else isFalse (fun hh => h (Except.ok.inj hh))
  | .error _, .ok _ => isFalse (fun hh => Except.noConfusion hh)
  | .ok _, .error _ => isFalse (fun hh => Except.noConfusion hh)

/-- The outcome of one process_image call: the returned response or the
escaping exception, the resulting registry, and the ghost dispatch trace. -/
structure ProcOutcome where
  result : Except PyExc UnifiedProcessResponse
  registry : Registry
  trace : List Attempt
  deriving DecidableEq, Repr

/-- The tail of process_image after a dispatch produced a result image:
encode (total), optionally save (a save failure propagates to the outer
except handler, whose locals are bound on this path), then assemble the
success response. -/
def finishProcess (env : Env) (req : UnifiedProcessRequest) (reg : Registry)
    (start : Nat) (b : Backend) (fb : Bool) (resultImage : Img)
    (tr : List Attempt) : ProcOutcome :=
  match (if req.save_result then env.save_outcome.map some else .ok none) with
  | .error e =>
      { result := .ok (failureResponse req b fb e (reg.clock - start))
        registry := reg
        trace := tr }
  | .ok savedPath =>
      { result := .ok
          { success := true
            processed_image := some resultImage
            model_used := req.model_id
            backend_used := b
            processing_time_ms := reg.clock - start
            fallback_used := fb
            saved_path := savedPath.join
            error := none }
        registry := reg
        trace := tr }

/-- UnifiedProcessor.process_image. On the paths where the exception is
raised before the backend_used local is assigned (unknown model id, or a
failing image decode), the outer except handler itself raises
UnboundLocalError when it evaluates backend_used, and that exception escapes
to the caller; on every later path the handler returns a structured failure
response. -/
def processImage (env : Env) (reg : Registry) (req : UnifiedProcessRequest) :
    ProcOutcome :=
  let start := reg.clock
  match alistLookup reg.models req.model_id with
  | none =>
      { result := .error (.unboundLocalError "backend_used")
        registry := reg
        trace := [] }
  | some mi =>
    match env.decode_image req.image with
    | none =>
        { result := .error (.unboundLocalError "backend_used")
          registry := reg
          trace := [] }
    | some img =>
      let backendUsed := req.backend_preference.getD mi.backend
      let primary : Attempt :=
        { model_id := req.model_id, backend := backendUsed
          processor_type := mi.processor_type }
      match processWithBackend env img mi backendUsed reg with
      | (.ok resultImage, reg1) =>
          finishProcess env req reg1 start backendUsed false resultImage [primary]
      | (.error e, reg1) =>
        if req.fallback_enabled = false then
          { result := .ok (failureResponse req backendUsed false e (reg1.clock - start))
            registry := reg1
            trace := [primary] }
        else
          match processWithFallback env img mi reg1 with
          | (.ok (resultImage, fbBackend), reg2, ftr) =>
              finishProcess env req reg2 start fbBackend true resultImage
                (primary :: ftr)
          | (.error e2, reg2, ftr) =>
              { result := .ok (failureResponse req backendUsed false e2
                  (reg2.clock - start))
                registry := reg2
                trace := primary :: ftr }

/-! Basic lemmas about the association-list dictionary operations and the
datetime order used by the LRU scan. -/

theorem alistLookup_map {α β : Type} (f : α → β) (l : List (String × α))
    (k : String) :
    alistLookup (l.map (fun p => (p.1, f p.2))) k = (alistLookup l k).map f := by
  induction l with
  | nil => rfl
  | cons p rest ih =>
      unfold alistLookup
      by_cases h : p.1 = k <;> simp [h, ih]

theorem alistLookup_insert_self {α : Type} (l : List (String × α)) (k : String)
    (v : α) : alistLookup (alistInsert l k v) k = some v := by
  induction l with
  | nil => simp [alistInsert, alistLookup]
  | cons p rest ih =>
      unfold alistInsert
      by_cases h : p.1 = k <;> simp [h, alistLookup, ih]

theorem alistLookup_insert_other {α : Type} (l : List (String × α))
    (k k2 : String) (v : α) (hne : k ≠ k2) :
    alistLookup (alistInsert l k v) k2 = alistLookup l k2 := by
  induction l with
  | nil => simp [alistInsert, alistLookup, hne]
  | cons p rest ih =>
      unfold alistInsert
      by_cases h : p.1 = k
      · simp [alistLookup, h, hne]
      · simp [alistLookup, h, ih]

theorem alistInsert_length_of_not_mem {α : Type} (l : List (String × α))
    (k : String) (v : α) (h : alistLookup l k = none) :
    (alistInsert l k v).length = l.length + 1 := by
  induction l with
  | nil => rfl
  | cons p rest ih =>
      unfold alistLookup at h
      unfold alistInsert
      by_cases hk : p.1 = k
      · simp [hk] at h
      · simp only [if_neg hk]
        simp [hk] at h
        simp [ih h]

theorem alistErase_length_le {α : Type} (l : List (String × α)) (k : String) :
    (alistErase l k).length ≤ l.length := by
  induction l with
  | nil => simp [alistErase]
  | cons p rest ih =>
      obtain ⟨k1, v⟩ := p
      by_cases hk : k1 = k <;> simp [alistErase, hk] <;> omega

theorem alistErase_length_lt {α : Type} (l : List (String × α)) (k : String)
    (h : alistLookup l k ≠ none) : (alistErase l k).length + 1 ≤ l.length := by
  induction l with
  | nil => simp [alistLookup] at h
  | cons p rest ih =>
      obtain ⟨k1, v⟩ := p
      unfold alistLookup at h
      by_cases hk : k1 = k
      · have := alistErase_length_le rest k
        simp only [alistErase]
        simp [hk]
        omega
      · simp only [hk, if_false] at h
        have := ih (by simpa using h)
        simp [alistErase, hk]
        omega

theorem alistLookup_erase_of_none {α : Type} (l : List (String × α))
    (k k2 : String) (h : alistLookup l k2 = none) :
    alistLookup (alistErase l k) k2 = none := by
  induction l with
  | nil => rfl
  | cons p rest ih =>
      obtain ⟨k1, v⟩ := p
      unfold alistLookup at h
      by_cases hk2 : k1 = k2
      · simp [hk2] at h
      · simp only [hk2, if_false] at h
        by_cases hk : k1 = k
        · simpa [alistErase, hk] using ih h
        · simpa [alistErase, hk, alistLookup, hk2] using ih h

theorem optLt_irrefl (x : Option Nat) : optLt x x = false := by
  cases x <;> simp [optLt]

theorem optLt_asymm {x y : Option Nat} (h : optLt x y = true) :
    optLt y x = false := by
  cases x <;> cases y <;> simp_all [optLt] <;> omega

theorem optLt_trans {x y z : Option Nat} (h1 : optLt x y = true)
    (h2 : optLt y z = true) : optLt x z = true := by
  cases x <;> cases y <;> cases z <;> simp_all [optLt] <;> omega

theorem optLt_trans_not {x y z : Option Nat} (h1 : optLt x y = true)
    (h2 : optLt z y = false) : optLt x z = true := by
  cases x <;> cases y <;> cases z <;> simp_all [optLt] <;> omega

theorem optLe_refl (x : Option Nat) : optLe x x = true := by
  simp [optLe, optLt_irrefl]

theorem optLe_of_optLt {x y : Option Nat} (h : optLt x y = true) :
    optLe x y = true := by
  simp [optLe, optLt_asymm h]

theorem optLe_of_not_optLt {x y : Option Nat} (h : optLt y x = false) :
    optLe x y = true := by
  simp [optLe, h]

theorem optLe_trans {x y z : Option Nat} (h1 : optLe x y = true)
    (h2 : optLe y z = true) : optLe x z = true := by
  cases x <;> cases y <;> cases z <;> simp_all [optLe, optLt] <;> omega

/-- The Python min scan returns its initial candidate or a list element. -/
theorem pyFoldMin_eq_or_mem (f : String → Option Nat) (l : List String) :
    ∀ acc : String, pyFoldMin f acc l = acc ∨ pyFoldMin f acc l ∈ l := by
  induction l with
  | nil => intro acc; left; rfl
  | cons y ys ih =>
      intro acc
      by_cases hc : optLt (f y) (f acc) = true
      · simp only [pyFoldMin, hc, if_true]
        rcases ih y with h | h
        · right; rw [h]; exact List.mem_cons_self y ys
        · right; exact List.mem_cons_of_mem y h
      · have hc2 : optLt (f y) (f acc) = false := Bool.eq_false_iff.mpr hc
        simp only [pyFoldMin, hc2, Bool.false_eq_true, if_false]
        rcases ih acc with h | h
        · left; exact h
        · right; exact List.mem_cons_of_mem y h

/-- The Python min scan returns a candidate whose key is no larger than the
key of the initial candidate and of every list element. -/
theorem pyFoldMin_le (f : String → Option Nat) (l : List String) :
    ∀ acc : String, optLe (f (pyFoldMin f acc l)) (f acc) = true ∧
      ∀ y ∈ l, optLe (f (pyFoldMin f acc l)) (f y) = true := by
  induction l with
  | nil =>
      intro acc
      exact ⟨optLe_refl _, by intro y hy; cases hy⟩
  | cons y ys ih =>
      intro acc
      by_cases hc : optLt (f y) (f acc) = true
      · simp only [pyFoldMin, hc, if_true]
        obtain ⟨h1, h2⟩ := ih y
        refine ⟨optLe_trans h1 (optLe_of_optLt hc), ?_⟩
        intro z hz
        rcases List.mem_cons.mp hz with rfl | hz
        · exact h1
        · exact h2 z hz
      · have hc2 : optLt (f y) (f acc) = false := Bool.eq_false_iff.mpr hc
        simp only [pyFoldMin, hc2, Bool.false_eq_true, if_false]
        obtain ⟨h1, h2⟩ := ih acc
        refine ⟨h1, ?_⟩
        intro z hz
        rcases List.mem_cons.mp hz with rfl | hz
        · exact optLe_trans h1 (optLe_of_not_optLt hc2)
        · exact h2 z hz

/-- When the Python min scan moves off its initial candidate, it returns the
first list element achieving the minimal key: every element strictly before
the winner has a strictly larger key. -/
theorem pyFoldMin_first (f : String → Option Nat) (l : List String) :
    ∀ acc : String, pyFoldMin f acc l ≠ acc →
      pyFoldMin f acc l ∈ l ∧
      optLt (f (pyFoldMin f acc l)) (f acc) = true ∧
      ∀ y ∈ l.takeWhile (fun z => z ≠ pyFoldMin f acc l),
        optLt (f (pyFoldMin f acc l)) (f y) = true := by
  induction l with
  | nil => intro acc h; exact absurd rfl h
  | cons y ys ih =>
      intro acc hne
      by_cases hc : optLt (f y) (f acc) = true
      · simp only [pyFoldMin, hc, if_true] at hne ⊢
        by_cases hry : pyFoldMin f y ys = y
        · rw [hry]
          refine ⟨List.mem_cons_self y ys, hc, ?_⟩
          intro z hz
          rw [List.takeWhile_cons] at hz
          simp at hz
        · obtain ⟨hm, hlt, hfirst⟩ := ih y hry
          refine ⟨List.mem_cons_of_mem y hm, optLt_trans hlt hc, ?_⟩
          intro z hz
          rw [List.takeWhile_cons] at hz
          have hyr : (y ≠ pyFoldMin f y ys) := fun he => hry he.symm
          simp only [hyr, decide_eq_true_eq, if_true] at hz
          rcases List.mem_cons.mp (by simpa [hyr] using hz) with rfl | hz2
          · exact hlt
          · exact hfirst z (by simpa using hz2)
      · have hc2 : optLt (f y) (f acc) = false := Bool.eq_false_iff.mpr hc
        simp only [pyFoldMin, hc2, Bool.false_eq_true, if_false] at hne ⊢
        obtain ⟨hm, hlt, hfirst⟩ := ih acc hne
        have hry : pyFoldMin f acc ys ≠ y := by
          intro he
          rw [he] at hlt
          rw [hlt] at hc2
          cases hc2
        refine ⟨List.mem_cons_of_mem y hm, hlt, ?_⟩
        intro z hz
        rw [List.takeWhile_cons] at hz
        have hyr : (y ≠ pyFoldMin f acc ys) := fun he => hry he.symm
        rcases List.mem_cons.mp (by simpa [hyr] using hz) with rfl | hz2
        · exact optLt_trans_not hlt hc2
        · exact hfirst z (by simpa using hz2)

/-! Concrete environments used to exhibit witnesses and counterexamples. -/

/-- An environment where every artifact exists, every optional runtime can be
imported, every weight load succeeds, every pipeline succeeds, decoding
succeeds, and saving succeeds. -/
def envAll : Env :=
  { pytorch_available := true
    onnxruntime_available := true
    safetensors_available := true
    file_on_disk := fun _ => true
    file_size := fun _ => 100
    torch_load_ok := fun _ => true
    torch_load_msg := fun _ => "weights load failed"
    pipeline_ok := fun _ _ => true
    pipeline_msg := fun _ _ => "pipeline failed"
    decode_image := fun _ => some { width := 64, height := 64 }
    save_outcome := .ok (some "output/saved.png") }

/-- envAll with the torch import failing (PYTORCH_AVAILABLE = False). -/
def envNoTorch : Env := { envAll with pytorch_available := false }

/-- envAll with the onnxruntime import failing. -/
def envOnnxMissing : Env := { envAll with onnxruntime_available := false }

/-- The catalog entry for builtin_canny, as written in _initialize_models. -/
def builtinCannyInfo : ModelInfo :=
  { id := "builtin_canny", name := "Built-in Canny Edge Detection",
    processor_type := .edgeDetection, backend := .builtin }

/-- The availability probe is idempotent on a single descriptor: every branch
of checkOne preserves backend and file_path, which are all it examines. -/
theorem checkOne_idem (env : Env) (mi : ModelInfo) :
    checkOne env (checkOne env mi) = checkOne env mi := by
  by_cases hb : (mi.backend = .builtin ∨ mi.backend = .opencv)
  · simp [checkOne, hb]
  · cases hfp : mi.file_path with
    | none => simp [checkOne, hb, hfp]
    | some fp =>
        by_cases hd : env.file_on_disk fp = true
        · simp [checkOne, hb, hfp, hd]
        · have hd2 : env.file_on_disk fp = false := Bool.eq_false_iff.mpr hd
          simp [checkOne, hb, hfp, hd2]

/-- C9: after the availability probe runs, every descriptor whose backend is
builtin or the cpu-vision library (opencv) has status available; every other
descriptor is available with its file size recorded when its artifact path
exists on disk, and not_found with a diagnostic message otherwise; and
re-running the probe is idempotent. -/
theorem c9_availability_probe (env : Env) (reg : Registry) (k : String)
    (mi : ModelInfo) (h : alistLookup reg.models k = some mi) :
    alistLookup (checkModelAvailability env reg).models k =
      some (checkOne env mi) ∧
    ((mi.backend = .builtin ∨ mi.backend = .opencv) →
      (checkOne env mi).status = .available) ∧
    (mi.backend ≠ .builtin → mi.backend ≠ .opencv →
      (∀ fp, mi.file_path = some fp →
        (env.file_on_disk fp = true →
          (checkOne env mi).status = .available ∧
          (checkOne env mi).size = some (env.file_size fp)) ∧
        (env.file_on_disk fp = false →
          (checkOne env mi).status = .notFound ∧
          (checkOne env mi).error_message =
            some ("Model file not found: " ++ fp))) ∧
      (mi.file_path = none →
        (checkOne env mi).status = .notFound ∧
        (checkOne env mi).error_message = some "Model file not found: None")) ∧
    checkModelAvailability env (checkModelAvailability env reg) =
      checkModelAvailability env reg := by
  refine ⟨?_, ?_, ?_, ?_⟩
  · unfold checkModelAvailability
    simp only
    rw [alistLookup_map (checkOne env) reg.models k, h]
    rfl
  · intro hb
    simp [checkOne, hb]
  · intro hb1 hb2
    have hb : ¬(mi.backend = .builtin ∨ mi.backend = .opencv) := by
      intro hh; rcases hh with hh | hh
      · exact hb1 hh
      · exact hb2 hh
    constructor
    · intro fp hfp
      constructor
      · intro hd
        simp [checkOne, hb, hfp, hd]
      · intro hd
        simp [checkOne, hb, hfp, hd]
    · intro hfp
      simp [checkOne, hb, hfp, optionStr]
  · unfold checkModelAvailability
    simp only [List.map_map]
    congr 1
    apply List.map_congr_left
    intro p _
    simp [Function.comp, checkOne_idem]

/-- Witness for C9 at a concrete input: the builtin_canny descriptor of the
shipped catalog, probed in the all-available environment. -/
theorem c9_availability_probe_witness :
    alistLookup baseRegistry.models "builtin_canny" = some builtinCannyInfo ∧
    (alistLookup (checkModelAvailability envAll baseRegistry).models
        "builtin_canny" = some (checkOne envAll builtinCannyInfo) ∧
     ((builtinCannyInfo.backend = .builtin ∨ builtinCannyInfo.backend = .opencv) →
       (checkOne envAll builtinCannyInfo).status = .available) ∧
     (builtinCannyInfo.backend ≠ .builtin → builtinCannyInfo.backend ≠ .opencv →
       (∀ fp, builtinCannyInfo.file_path = some fp →
         (envAll.file_on_disk fp = true →
           (checkOne envAll builtinCannyInfo).status = .available ∧
           (checkOne envAll builtinCannyInfo).size =
             some (envAll.file_size fp)) ∧
         (envAll.file_on_disk fp = false →
           (checkOne envAll builtinCannyInfo).status = .notFound ∧
           (checkOne envAll builtinCannyInfo).error_message =
             some ("Model file not found: " ++ fp))) ∧
       (builtinCannyInfo.file_path = none →
         (checkOne envAll builtinCannyInfo).status = .notFound ∧
         (checkOne envAll builtinCannyInfo).error_message =
           some "Model file not found: None")) ∧
     checkModelAvailability envAll (checkModelAvailability envAll baseRegistry) =
       checkModelAvailability envAll baseRegistry) :=
  ⟨by decide,
   c9_availability_probe envAll baseRegistry "builtin_canny" builtinCannyInfo
     (by decide)⟩

/-- A request naming a model id absent from the registry (the scenario of
section 8 of the spec). -/
def reqUnknown : UnifiedProcessRequest :=
  { image := "aGVsbG8=", model_id := "unknown_model" }

/-- C1: the claim that process_image never lets an exception escape fails on
the code: for a request whose model id is not in the registry, the ValueError
raised at descriptor resolution reaches the outer except handler before the
local backend_used was ever assigned, and the handler itself raises
UnboundLocalError while building the failure response, which escapes
process_image. The same happens when the image decode raises. -/
theorem c1_error_boundary_bug :
    (processImage envAll (mkRegistry envAll) reqUnknown).result =
      .error (.unboundLocalError "backend_used") := by
  decide

/-- C2: for an unknown model id, the claim is right that the cache map and
every statistics counter are untouched, but process_image does not return a
success=false response naming the missing model: the except handler raises
UnboundLocalError (it reads backend_used before assignment), and that
exception propagates to the caller. -/
theorem c2_unknown_model_bug :
    (processImage envAll (mkRegistry envAll) reqUnknown).result =
      .error (.unboundLocalError "backend_used") ∧
    (processImage envAll (mkRegistry envAll) reqUnknown).registry.model_cache =
      (mkRegistry envAll).model_cache ∧
    (processImage envAll (mkRegistry envAll) reqUnknown).registry.cache_stats =
      (mkRegistry envAll).cache_stats := by
  decide

theorem alistLookup_map_withKey {α β : Type} (g : String → α → β)
    (l : List (String × α)) (k : String) :
    alistLookup (l.map (fun p => (p.1, g p.1 p.2))) k =
      (alistLookup l k).map (g k) := by
  induction l with
  | nil => rfl
  | cons p rest ih =>
      obtain ⟨k1, v⟩ := p
      by_cases h : k1 = k
      · subst h; simp [alistLookup, List.map]
      · simp [alistLookup, List.map, h, ih]

theorem updateModelInfo_lookup (reg : Registry) (mid k : String)
    (f : ModelInfo → ModelInfo) :
    alistLookup (updateModelInfo reg mid f).models k =
      (alistLookup reg.models k).map (fun m => if k = mid then f m else m) := by
  unfold updateModelInfo
  simp only
  rw [alistLookup_map_withKey (fun k2 m => if k2 = mid then f m else m)
    reg.models k]

theorem updateModelInfo_lookup_self (reg : Registry) (mid : String)
    (f : ModelInfo → ModelInfo) :
    alistLookup (updateModelInfo reg mid f).models mid =
      (alistLookup reg.models mid).map f := by
  rw [updateModelInfo_lookup]
  cases alistLookup reg.models mid <;> simp

theorem updateModelInfo_lookup_other (reg : Registry) (mid k : String)
    (f : ModelInfo → ModelInfo) (h : k ≠ mid) :
    alistLookup (updateModelInfo reg mid f).models k =
      alistLookup reg.models k := by
  rw [updateModelInfo_lookup]
  cases alistLookup reg.models k <;> simp [h]

theorem updateModelInfo_model_cache (reg : Registry) (mid : String)
    (f : ModelInfo → ModelInfo) :
    (updateModelInfo reg mid f).model_cache = reg.model_cache := rfl

theorem updateModelInfo_cache_stats (reg : Registry) (mid : String)
    (f : ModelInfo → ModelInfo) :
    (updateModelInfo reg mid f).cache_stats = reg.cache_stats := rfl

/-- Eviction changes descriptor statuses only: whether a model id is present
in the descriptor table is unchanged. -/
theorem evict_models_isSome (reg : Registry) (k : String) :
    (alistLookup (evictLeastUsed reg).models k).isSome =
      (alistLookup reg.models k).isSome := by
  unfold evictLeastUsed
  cases hkeys : alistKeys reg.model_cache with
  | nil => rfl
  | cons kh kt =>
      simp only
      rw [updateModelInfo_lookup]
      cases alistLookup reg.models k <;> simp

theorem updateModelInfo_max_cache_size (reg : Registry) (mid : String)
    (f : ModelInfo → ModelInfo) :
    (updateModelInfo reg mid f).max_cache_size = reg.max_cache_size := rfl

theorem updateModelInfo_next_obj (reg : Registry) (mid : String)
    (f : ModelInfo → ModelInfo) :
    (updateModelInfo reg mid f).next_obj = reg.next_obj := rfl

theorem evict_cache_stats_hits (reg : Registry) :
    (evictLeastUsed reg).cache_stats.hits = reg.cache_stats.hits := by
  unfold evictLeastUsed
  cases alistKeys reg.model_cache <;> rfl

theorem evict_cache_stats_misses (reg : Registry) :
    (evictLeastUsed reg).cache_stats.misses = reg.cache_stats.misses := by
  unfold evictLeastUsed
  cases alistKeys reg.model_cache <;> rfl

theorem evict_max_cache_size (reg : Registry) :
    (evictLeastUsed reg).max_cache_size = reg.max_cache_size := by
  unfold evictLeastUsed
  cases alistKeys reg.model_cache <;> rfl

theorem evict_next_obj (reg : Registry) :
    (evictLeastUsed reg).next_obj = reg.next_obj := by
  unfold evictLeastUsed
  cases alistKeys reg.model_cache <;> rfl

/-- Cache-hit branch of load_model: the cached handle is returned unchanged,
the hit counter advances, and neither the cache nor the presence of any
descriptor changes. -/
theorem loadModel_hit (env : Env) (reg : Registry) (mid : String)
    (mi : ModelInfo) (h : Handle)
    (hm : alistLookup reg.models mid = some mi)
    (hc : alistLookup reg.model_cache mid = some h) :
    (loadModel env reg mid).1 = .ok h ∧
    (loadModel env reg mid).2.model_cache = reg.model_cache ∧
    (loadModel env reg mid).2.cache_stats.hits = reg.cache_stats.hits + 1 ∧
    (loadModel env reg mid).2.cache_stats.misses = reg.cache_stats.misses ∧
    (∀ k, (alistLookup (loadModel env reg mid).2.models k).isSome =
        (alistLookup reg.models k).isSome) := by
  refine ⟨?_, ?_, ?_, ?_, fun k => ?_⟩
  · simp [loadModel, hm, hc]
  · simp [loadModel, hm, hc, updateModelInfo_model_cache]
  · simp [loadModel, hm, hc, updateModelInfo_cache_stats]
  · simp [loadModel, hm, hc, updateModelInfo_cache_stats]
  · simp [loadModel, hm, hc, updateModelInfo_lookup, Option.isSome_map]

/-- Builtin/opencv miss branch of load_model: a fresh sentinel handle is
returned, the miss counter advances, and the cache is untouched. -/
theorem loadModel_builtin_sentinel (env : Env) (reg : Registry) (mid : String)
    (mi : ModelInfo)
    (hm : alistLookup reg.models mid = some mi)
    (hc : alistLookup reg.model_cache mid = none)
    (hb : mi.backend = .builtin ∨ mi.backend = .opencv) :
    (loadModel env reg mid).1 =
      .ok (.sentinel (mi.backend.value ++ "_processor")) ∧
    (loadModel env reg mid).2.model_cache = reg.model_cache ∧
    (loadModel env reg mid).2.cache_stats.hits = reg.cache_stats.hits ∧
    (loadModel env reg mid).2.cache_stats.misses =
      reg.cache_stats.misses + 1 := by
  have hbe : (mi.backend = .builtin ∨ mi.backend = .opencv) = True :=
    eq_true hb
  refine ⟨?_, ?_, ?_, ?_⟩
  · simp [loadModel, hm, hc, hbe]
  · simp [loadModel, hm, hc, hbe, updateModelInfo_model_cache]
  · simp [loadModel, hm, hc, hbe, updateModelInfo_cache_stats]
  · simp [loadModel, hm, hc, hbe, updateModelInfo_cache_stats]

/-- Native-compute (pytorch) miss branch of load_model on the success path:
some torch handle is returned and inserted into the cache under the model id,
the descriptor stays present, the hit counter is unchanged and the miss
counter advances. -/
theorem loadModel_pytorch_success (env : Env) (reg : Registry) (mid : String)
    (mi : ModelInfo)
    (hm : alistLookup reg.models mid = some mi)
    (hc : alistLookup reg.model_cache mid = none)
    (hb : mi.backend = .pytorch)
    (hpt : env.pytorch_available = true)
    (hst : mi.status = .available)
    (hka : knownTorchArchitecture mid = true)
    (hok : env.torch_load_ok mid = true) :
    ∃ h : Handle,
      (loadModel env reg mid).1 = .ok h ∧
      alistLookup (loadModel env reg mid).2.model_cache mid = some h ∧
      ((alistLookup (loadModel env reg mid).2.models mid).isSome = true) ∧
      (loadModel env reg mid).2.cache_stats.hits = reg.cache_stats.hits ∧
      (loadModel env reg mid).2.cache_stats.misses =
        reg.cache_stats.misses + 1 := by
  by_cases hly : reg.max_cache_size ≤ reg.model_cache.length <;>
  · refine ⟨Handle.torch reg.next_obj, ?_, ?_, ?_, ?_, ?_⟩ <;>
      simp [loadModel, hm, hc, hb, hpt, hst, hka, hok, hly,
        updateModelInfo_model_cache, updateModelInfo_cache_stats,
        updateModelInfo_max_cache_size, updateModelInfo_next_obj,
        updateModelInfo_lookup_self, evict_cache_stats_hits,
        evict_cache_stats_misses, evict_max_cache_size, evict_next_obj,
        evict_models_isSome, alistLookup_insert_self, Option.isSome_map]

/-- C5 counterexample: builtin_canny is an available model id, yet loading it
twice in a row from a fresh registry leaves the hits counter at 0 (both calls
are misses), contradicting the claimed hits >= 1 for every available id. -/
theorem c5_counterexample :
    (alistLookup (mkRegistry envAll).models "builtin_canny").map
      (fun m => m.status) = some ModelStatus.available ∧
    (loadModel envAll
      (loadModel envAll (mkRegistry envAll) "builtin_canny").2
      "builtin_canny").2.cache_stats.hits = 0 := by
  decide

/-- C5 amended: for an available model id with the native-compute (pytorch)
backend whose architecture is known and whose weight load succeeds — the ids
that the cache actually stores — loading twice in a row yields the same
handle from both calls and a hits counter of at least 1 after the second
call. (Builtin/opencv ids are never cached, so for them both calls are
misses and the counter stays unchanged, as the counterexample shows.) -/
theorem c5_amended (env : Env) (reg : Registry) (mid : String) (mi : ModelInfo)
    (hm : alistLookup reg.models mid = some mi)
    (hb : mi.backend = .pytorch)
    (hpt : env.pytorch_available = true)
    (hload : alistLookup reg.model_cache mid ≠ none ∨
      (mi.status = .available ∧ knownTorchArchitecture mid = true ∧
       env.torch_load_ok mid = true)) :
    (∃ h : Handle, (loadModel env reg mid).1 = .ok h ∧
       (loadModel env (loadModel env reg mid).2 mid).1 = .ok h) ∧
    1 ≤ (loadModel env (loadModel env reg mid).2 mid).2.cache_stats.hits := by
  by_cases hcache : alistLookup reg.model_cache mid = none
  · rcases hload with hx | ⟨hst, hka, hok⟩
    · exact absurd hcache hx
    · obtain ⟨h, e1, e2, e3, e4, e5⟩ :=
        loadModel_pytorch_success env reg mid mi hm hcache hb hpt hst hka hok
      obtain ⟨mi2, hm2⟩ := Option.isSome_iff_exists.mp e3
      obtain ⟨f1, f2, f3, f4, f5⟩ :=
        loadModel_hit env (loadModel env reg mid).2 mid mi2 h hm2 e2
      exact ⟨⟨h, e1, f1⟩, by omega⟩
  · obtain ⟨h0, hcv⟩ : ∃ h0, alistLookup reg.model_cache mid = some h0 := by
      cases hcv : alistLookup reg.model_cache mid with
      | none => exact absurd hcv hcache
      | some h0 => exact ⟨h0, rfl⟩
    obtain ⟨e1, e2, e3, e4, e5⟩ := loadModel_hit env reg mid mi h0 hm hcv
    have e6 := e5 mid
    rw [hm] at e6
    obtain ⟨mi2, hm2⟩ := Option.isSome_iff_exists.mp e6
    obtain ⟨f1, f2, f3, f4, f5⟩ :=
      loadModel_hit env (loadModel env reg mid).2 mid mi2 h0 hm2
        (by rw [e2]; exact hcv)
    exact ⟨⟨h0, e1, f1⟩, by omega⟩

/-- The midas_v21 descriptor as it stands in a fresh registry probed in the
all-available environment. -/
def midasProbed : ModelInfo :=
  checkOne envAll
    { id := "midas_v21", name := "MiDaS v2.1",
      file_path := prep "midas_v21_384.pt",
      processor_type := .depthEstimation, backend := .pytorch,
      fallback_models := ["builtin_depth"] }

/-- Witness for C5 amended at a concrete input: midas_v21 with its artifact
on disk, loaded twice from a fresh registry. -/
theorem c5_amended_witness :
    (alistLookup (mkRegistry envAll).models "midas_v21" = some midasProbed) ∧
    ((∃ h : Handle,
        (loadModel envAll (mkRegistry envAll) "midas_v21").1 = .ok h ∧
        (loadModel envAll (loadModel envAll (mkRegistry envAll) "midas_v21").2
          "midas_v21").1 = .ok h) ∧
     1 ≤ (loadModel envAll (loadModel envAll (mkRegistry envAll) "midas_v21").2
          "midas_v21").2.cache_stats.hits) :=
  ⟨by decide,
   c5_amended envAll (mkRegistry envAll) "midas_v21" midasProbed (by decide)
     (by decide) (by decide) (.inr (by decide))⟩

/-- C8: with fallback_enabled=false and a primary backend dispatch that
raises, process_image does not consult the fallback chain (the state is
exactly the post-primary state and the trace holds only the primary attempt)
and returns a failure response carrying the primary exception's message
verbatim in the error field. -/
theorem c8_disabled_fallback (env : Env) (reg : Registry)
    (req : UnifiedProcessRequest) (mi : ModelInfo) (img : Img) (e : PyExc)
    (reg1 : Registry)
    (hm : alistLookup reg.models req.model_id = some mi)
    (hd : env.decode_image req.image = some img)
    (hfb : req.fallback_enabled = false)
    (he : processWithBackend env img mi (req.backend_preference.getD mi.backend)
      reg = (.error e, reg1)) :
    processImage env reg req =
      { result := .ok (failureResponse req
          (req.backend_preference.getD mi.backend) false e
          (reg1.clock - reg.clock))
        registry := reg1
        trace := [{ model_id := req.model_id
                    backend := req.backend_preference.getD mi.backend
                    processor_type := mi.processor_type }] } := by
  simp only [processImage, hm, hd, he, hfb, if_true]

/-- The decoded input image used by concrete scenarios. -/
def imgTest : Img := { width := 64, height := 64 }

/-- A request for the pytorch model midas_v21 with fallback disabled. -/
def reqDisabledFallback : UnifiedProcessRequest :=
  { image := "aGVsbG8=", model_id := "midas_v21", fallback_enabled := false }

/-- Witness for C8 at a concrete input: midas_v21 requested with fallback
disabled while torch is unavailable; the response carries the primary
RuntimeError message verbatim. -/
theorem c8_disabled_fallback_witness :
    (alistLookup (mkRegistry envNoTorch).models reqDisabledFallback.model_id =
       some midasProbed) ∧
    (envNoTorch.decode_image reqDisabledFallback.image = some imgTest) ∧
    (reqDisabledFallback.fallback_enabled = false) ∧
    (processWithBackend envNoTorch imgTest midasProbed
       (reqDisabledFallback.backend_preference.getD midasProbed.backend)
       (mkRegistry envNoTorch) =
      (.error (.runtimeError "PyTorch not available"),
       mkRegistry envNoTorch)) ∧
    (processImage envNoTorch (mkRegistry envNoTorch) reqDisabledFallback =
      { result := .ok (failureResponse reqDisabledFallback
          (reqDisabledFallback.backend_preference.getD midasProbed.backend)
          false (.runtimeError "PyTorch not available")
          ((mkRegistry envNoTorch).clock - (mkRegistry envNoTorch).clock))
        registry := mkRegistry envNoTorch
        trace := [{ model_id := reqDisabledFallback.model_id
                    backend :=
                      reqDisabledFallback.backend_preference.getD
                        midasProbed.backend
                    processor_type := midasProbed.processor_type }] }) :=
  ⟨by decide, by decide, by decide, by decide,
   c8_disabled_fallback envNoTorch (mkRegistry envNoTorch) reqDisabledFallback
     midasProbed imgTest (.runtimeError "PyTorch not available")
     (mkRegistry envNoTorch) (by decide) (by decide) (by decide) (by decide)⟩

theorem getLast?_cons_of_getLast? {α : Type} (x : α) (l : List α) (a : α)
    (h : l.getLast? = some a) : (x :: l).getLast? = some a := by
  cases l with
  | nil => simp at h
  | cons y ys => rw [List.getLast?_cons_cons]; exact h

/-- When the fallback loop succeeds, the produced backend tag is the declared
backend of the last dispatch attempt recorded in the trace. -/
theorem fallbackGo_ok_last (env : Env) (img : Img) :
    ∀ (fids : List String) (reg : Registry) (tr : List Attempt)
      (im : Img) (b : Backend) (reg2 : Registry) (tr2 : List Attempt),
      fallbackGo env img fids reg tr = (.ok (im, b), reg2, tr2) →
      ∃ a : Attempt, tr2.getLast? = some a ∧ a.backend = b := by
  intro fids
  induction fids with
  | nil =>
      intro reg tr im b reg2 tr2 h
      simp [fallbackGo] at h
  | cons fid rest ih =>
      intro reg tr im b reg2 tr2 h
      unfold fallbackGo at h
      cases hfi : alistLookup reg.models fid with
      | none =>
          rw [hfi] at h
          dsimp only [] at h
          exact ih reg tr im b reg2 tr2 h
      | some fi =>
          rw [hfi] at h
          dsimp only [] at h
          by_cases hst : fi.status ≠ ModelStatus.available
          · rw [if_pos hst] at h
            exact ih reg tr im b reg2 tr2 h
          · rw [if_neg hst] at h
            cases hpb : processWithBackend env img fi fi.backend reg with
            | mk r1 reg1 =>
                rw [hpb] at h
                cases r1 with
                | ok res =>
                    dsimp only [] at h
                    simp only [Prod.mk.injEq] at h
                    obtain ⟨h1, h2, h3⟩ := h
                    obtain ⟨rfl, rfl⟩ := Except.ok.inj h1
                    refine ⟨{ model_id := fid, backend := fi.backend
                              processor_type := fi.processor_type }, ?_, rfl⟩
                    rw [← h3, List.getLast?_concat]
                | error e1 =>
                    dsimp only [] at h
                    exact ih reg1 _ im b reg2 tr2 h

/-- C4 counterexample: requesting opencv_canny with backend preference onnx
while onnxruntime is missing succeeds, reports backend_used = onnx, yet the
image was produced by the OpenCV pipeline (the ONNX handler silently
delegates to OpenCV on the import failure), so backend_used is not the
backend whose pipeline produced the image. -/
theorem c4_counterexample :
    (processImage envOnnxMissing (mkRegistry envOnnxMissing)
      { image := "aGVsbG8=", model_id := "opencv_canny"
        backend_preference := some .onnx }).result =
      .ok { success := true
            processed_image :=
              some { width := 64, height := 64, produced_by := some .opencv }
            model_used := "opencv_canny"
            backend_used := .onnx
            processing_time_ms := 0
            fallback_used := false
            saved_path := none
            error := none } ∧
    Backend.onnx ≠ Backend.opencv := by
  decide

/-- C4 amended: every returned response with success=false carries no
processed_image; every response with success=true reports as backend_used the
backend tag of the last dispatch attempt (the resolved primary backend, or
the successful fallback candidate's declared backend) — which is the handler
that was invoked, though that handler may internally delegate to another
backend's pipeline (onnx to opencv, safetensors to pytorch). -/
theorem c4_amended (env : Env) (reg : Registry) (req : UnifiedProcessRequest)
    (resp : UnifiedProcessResponse)
    (hr : (processImage env reg req).result = .ok resp) :
    (resp.success = false → resp.processed_image = none) ∧
    (resp.success = true →
      ((processImage env reg req).trace.getLast?).map (fun a => a.backend) =
        some resp.backend_used) := by
  simp only [processImage] at hr ⊢
  cases hm : alistLookup reg.models req.model_id with
  | none => rw [hm] at hr; simp at hr
  | some mi =>
      rw [hm] at hr
      dsimp only [] at hr ⊢
      cases hd : env.decode_image req.image with
      | none => rw [hd] at hr; simp at hr
      | some img =>
          rw [hd] at hr
          dsimp only [] at hr ⊢
          cases hpb : processWithBackend env img mi
              (req.backend_preference.getD mi.backend) reg with
          | mk r1 reg1 =>
              rw [hpb] at hr
              cases r1 with
              | ok resultImage =>
                  dsimp only [] at hr ⊢
                  unfold finishProcess at hr ⊢
                  cases hs : (if req.save_result then env.save_outcome.map some
                      else .ok none) with
                  | error e =>
                      rw [hs] at hr
                      dsimp only [] at hr ⊢
                      obtain rfl := Except.ok.inj hr
                      exact ⟨fun _ => rfl, fun hsucc => by cases hsucc⟩
                  | ok sp =>
                      rw [hs] at hr
                      dsimp only [] at hr ⊢
                      obtain rfl := Except.ok.inj hr
                      refine ⟨?_, ?_⟩
                      · intro hsucc
                        simp at hsucc
                      · intro hsucc
                        simp [List.getLast?]
              | error e =>
                  dsimp only [] at hr ⊢
                  by_cases hfb : req.fallback_enabled = false
                  · rw [if_pos hfb] at hr
                    obtain rfl := Except.ok.inj hr
                    rw [if_pos hfb]
                    exact ⟨fun _ => rfl, fun hsucc => by cases hsucc⟩
                  · rw [if_neg hfb] at hr
                    rw [if_neg hfb]
                    cases hfg : processWithFallback env img mi reg1 with
                    | mk r2 rest2 =>
                        cases rest2 with
                        | mk reg2 ftr =>
                            rw [hfg] at hr
                            cases r2 with
                            | ok p =>
                                obtain ⟨resultImage, fbB⟩ := p
                                dsimp only [] at hr ⊢
                                unfold finishProcess at hr ⊢
                                cases hs : (if req.save_result then
                                    env.save_outcome.map some
                                    else .ok none) with
                                | error e2 =>
                                    rw [hs] at hr
                                    dsimp only [] at hr ⊢
                                    obtain rfl := Except.ok.inj hr
                                    exact ⟨fun _ => rfl,
                                      fun hsucc => by cases hsucc⟩
                                | ok sp =>
                                    rw [hs] at hr
                                    dsimp only [] at hr ⊢
                                    obtain rfl := Except.ok.inj hr
                                    refine ⟨?_, ?_⟩
                                    · intro hsucc
                                      simp at hsucc
                                    · intro hsucc
                                      obtain ⟨a, ha1, ha2⟩ :=
                                        fallbackGo_ok_last env img
                                          mi.fallback_models reg1 []
                                          resultImage fbB reg2 ftr hfg
                                      rw [getLast?_cons_of_getLast? _ _ _ ha1]
                                      simp [ha2]
                            | error e2 =>
                                dsimp only [] at hr ⊢
                                obtain rfl := Except.ok.inj hr
                                exact ⟨fun _ => rfl,
                                  fun hsucc => by cases hsucc⟩

/-- A plain request for midas_v21 with all defaults. -/
def reqMidas : UnifiedProcessRequest :=
  { image := "aGVsbG8=", model_id := "midas_v21" }

/-- The response produced for reqMidas in the all-available environment. -/
def respMidas : UnifiedProcessResponse :=
  { success := true
    processed_image := some { width := 64, height := 64, produced_by := some .pytorch }
    model_used := "midas_v21"
    backend_used := .pytorch
    processing_time_ms := 1
    fallback_used := false
    saved_path := none
    error := none }

/-- Witness for C4 amended at a concrete input: a successful midas_v21
request in the all-available environment. -/
theorem c4_amended_witness :
    ((processImage envAll (mkRegistry envAll) reqMidas).result =
      .ok respMidas) ∧
    ((respMidas.success = false → respMidas.processed_image = none) ∧
     (respMidas.success = true →
       ((processImage envAll (mkRegistry envAll) reqMidas).trace.getLast?).map
         (fun a => a.backend) = some respMidas.backend_used)) :=
  ⟨by decide,
   c4_amended envAll (mkRegistry envAll) reqMidas respMidas (by decide)⟩

theorem alistLookup_mem {α : Type} (l : List (String × α)) (k : String)
    (v : α) (h : alistLookup l k = some v) : (k, v) ∈ l := by
  induction l with
  | nil => cases h
  | cons p rest ih =>
      obtain ⟨k1, v1⟩ := p
      unfold alistLookup at h
      by_cases h1 : k1 = k
      · rw [if_pos h1] at h
        obtain rfl := Option.some.inj h
        subst h1
        exact List.mem_cons_self _ _
      · rw [if_neg h1] at h
        exact List.mem_cons_of_mem _ (ih h)

theorem checkOne_fallback_models (env : Env) (mi : ModelInfo) :
    (checkOne env mi).fallback_models = mi.fallback_models := by
  by_cases hb : (mi.backend = .builtin ∨ mi.backend = .opencv)
  · simp [checkOne, hb]
  · cases hfp : mi.file_path with
    | none => simp [checkOne, hb, hfp]
    | some fp =>
        by_cases hd : env.file_on_disk fp = true
        · simp [checkOne, hb, hfp, hd]
        · have hd2 : env.file_on_disk fp = false := Bool.eq_false_iff.mpr hd
          simp [checkOne, hb, hfp, hd2]

theorem mkRegistry_lookup (env : Env) (k : String) :
    alistLookup (mkRegistry env).models k =
      (alistLookup initialModels k).map (checkOne env) := by
  unfold mkRegistry checkModelAvailability baseRegistry
  exact alistLookup_map (checkOne env) initialModels k

/-- In the shipped catalog, no fallback list repeats a model id and no
descriptor lists itself as its own fallback. -/
theorem catalog_fallback_nodup :
    ∀ p ∈ initialModels,
      (p.2.fallback_models.Nodup ∧ p.1 ∉ p.2.fallback_models) := by
  decide

/-- The trace grown by finishProcess is exactly the trace passed to it. -/
theorem finishProcess_trace (env : Env) (req : UnifiedProcessRequest)
    (reg : Registry) (start : Nat) (b : Backend) (fb : Bool) (im : Img)
    (tr : List Attempt) :
    (finishProcess env req reg start b fb im tr).trace = tr := by
  unfold finishProcess
  cases (if req.save_result then env.save_outcome.map some else .ok none) <;>
    rfl

/-- The fallback loop appends to the trace only attempts drawn, in order and
without repetition, from the candidate id list it was given. -/
theorem fallbackGo_trace (env : Env) (img : Img) :
    ∀ (fids : List String) (reg : Registry) (tr : List Attempt),
      ∃ extra : List Attempt,
        (fallbackGo env img fids reg tr).2.2 = tr ++ extra ∧
        (extra.map (fun a => a.model_id)).Sublist fids := by
  intro fids
  induction fids with
  | nil =>
      intro reg tr
      exact ⟨[], by simp [fallbackGo], by simp⟩
  | cons fid rest ih =>
      intro reg tr
      unfold fallbackGo
      cases hfi : alistLookup reg.models fid with
      | none =>
          dsimp only []
          obtain ⟨extra, h1, h2⟩ := ih reg tr
          exact ⟨extra, h1, h2.cons fid⟩
      | some fi =>
          dsimp only []
          by_cases hst : fi.status ≠ ModelStatus.available
          · rw [if_pos hst]
            obtain ⟨extra, h1, h2⟩ := ih reg tr
            exact ⟨extra, h1, h2.cons fid⟩
          · rw [if_neg hst]
            cases hpb : processWithBackend env img fi fi.backend reg with
            | mk r1 reg1 =>
                cases r1 with
                | ok res =>
                    dsimp only []
                    refine ⟨[{ model_id := fid, backend := fi.backend
                               processor_type := fi.processor_type }], rfl, ?_⟩
                    simp
                | error e1 =>
                    dsimp only []
                    obtain ⟨extra, h1, h2⟩ :=
                      ih reg1 (tr ++ [{ model_id := fid, backend := fi.backend
                                        processor_type := fi.processor_type }])
                    refine ⟨{ model_id := fid, backend := fi.backend
                              processor_type := fi.processor_type } :: extra,
                      ?_, ?_⟩
                    · rw [h1, List.append_assoc]
                      rfl
                    · simpa using h2.cons₂ fid

/-- C3 counterexample: a request for normal_bae (processor_type normal_map)
with torch unavailable succeeds through the fallback candidate builtin_depth,
which is dispatched with its own processor_type depth_estimation — a
different processor_type than requested. -/
theorem c3_counterexample :
    ((processImage envNoTorch (mkRegistry envNoTorch)
        { image := "aGVsbG8=", model_id := "normal_bae" }).trace.map
       (fun a => (a.model_id, a.processor_type)) =
      [("normal_bae", ProcType.normalMap),
       ("builtin_depth", ProcType.depthEstimation)]) ∧
    ((processImage envNoTorch (mkRegistry envNoTorch)
        { image := "aGVsbG8=", model_id := "normal_bae" }).result =
      .ok { success := true
            processed_image :=
              some { width := 64, height := 64, produced_by := some .builtin }
            model_used := "normal_bae"
            backend_used := .builtin
            processing_time_ms := 0
            fallback_used := true
            saved_path := none
            error := none }) ∧
    ProcType.depthEstimation ≠ ProcType.normalMap := by
  decide

/-- C3 amended: for every request against the initialized catalog, no model
id is dispatched twice within one process_image call (the shipped fallback
lists contain no duplicates and never name the requested id); the fallback
executor does not, however, preserve the requested processor_type — each
candidate runs with its own declared processor_type, which for several
catalog entries differs from the requested one. -/
theorem c3_amended (env : Env) (req : UnifiedProcessRequest) :
    ((processImage env (mkRegistry env) req).trace.map
      (fun a => a.model_id)).Nodup := by
  simp only [processImage]
  cases hm : alistLookup (mkRegistry env).models req.model_id with
  | none => simp
  | some mi =>
      have hm0 := hm
      rw [mkRegistry_lookup] at hm0
      obtain ⟨mi0, hm1, hm2⟩ : ∃ mi0,
          alistLookup initialModels req.model_id = some mi0 ∧
          mi = checkOne env mi0 := by
        cases hv : alistLookup initialModels req.model_id with
        | none => rw [hv] at hm0; cases hm0
        | some mi0 =>
            rw [hv] at hm0
            exact ⟨mi0, rfl, (Option.some.inj hm0).symm⟩
      obtain ⟨hnd, hnm⟩ :=
        catalog_fallback_nodup (req.model_id, mi0) (alistLookup_mem _ _ _ hm1)
      have hfallback : mi.fallback_models = mi0.fallback_models := by
        rw [hm2, checkOne_fallback_models]
      dsimp only []
      cases hd : env.decode_image req.image with
      | none => simp
      | some img =>
          dsimp only []
          cases hpb : processWithBackend env img mi
              (req.backend_preference.getD mi.backend) (mkRegistry env) with
          | mk r1 reg1 =>
              cases r1 with
              | ok resultImage =>
                  dsimp only []
                  rw [finishProcess_trace]
                  simp
              | error e =>
                  dsimp only []
                  by_cases hfb : req.fallback_enabled = false
                  · rw [if_pos hfb]
                    simp
                  · rw [if_neg hfb]
                    obtain ⟨extra, htr, hsub⟩ :=
                      fallbackGo_trace env img mi.fallback_models reg1 []
                    rw [hfallback] at hsub
                    have hnodup2 : (extra.map (fun a => a.model_id)).Nodup :=
                      List.Nodup.sublist hsub hnd
                    have hmem2 : req.model_id ∉
                        extra.map (fun a => a.model_id) :=
                      fun hx => hnm (hsub.subset hx)
                    cases hfg : processWithFallback env img mi reg1 with
                    | mk r2 rest2 =>
                        cases rest2 with
                        | mk reg2 ftr =>
                            have hftr : ftr = extra := by
                              have : (processWithFallback env img mi reg1).2.2 =
                                  [] ++ extra := htr
                              rw [hfg] at this
                              simpa using this
                            subst hftr
                            cases r2 with
                            | ok p =>
                                obtain ⟨resultImage2, fbB⟩ := p
                                dsimp only []
                                rw [finishProcess_trace]
                                simp only [List.map_cons, List.nodup_cons]
                                exact ⟨hmem2, hnodup2⟩
                            | error e2 =>
                                dsimp only []
                                simp only [List.map_cons, List.nodup_cons]
                                exact ⟨hmem2, hnodup2⟩

theorem alistLookup_ne_none_of_mem_keys {α : Type} (l : List (String × α))
    (k : String) (h : k ∈ alistKeys l) : alistLookup l k ≠ none := by
  induction l with
  | nil => cases h
  | cons p rest ih =>
      obtain ⟨k1, v⟩ := p
      by_cases h1 : k1 = k
      · simp [alistLookup, h1]
      · have h2 : k ∈ alistKeys rest := by
          rcases List.mem_cons.mp h with h3 | h3
          · exact absurd h3.symm h1
          · exact h3
        simp only [alistLookup, h1, if_false]
        exact ih h2

/-- Full characterization of one eviction on a nonempty cache: the first id
with minimal (or absent) last_used is removed from the cache, its descriptor
status is reset to available, and only the evictions counter advances. -/
theorem evict_spec (reg : Registry) (kh : String) (kt : List String)
    (hkeys : alistKeys reg.model_cache = kh :: kt) :
    (evictLeastUsed reg).model_cache =
      alistErase reg.model_cache (pyFoldMin (lruKeyOf reg) kh kt) ∧
    (∀ k, alistLookup (evictLeastUsed reg).models k =
      (alistLookup reg.models k).map
        (fun m => if k = pyFoldMin (lruKeyOf reg) kh kt
          then { m with status := ModelStatus.available } else m)) ∧
    (evictLeastUsed reg).cache_stats.evictions =
      reg.cache_stats.evictions + 1 ∧
    (evictLeastUsed reg).cache_stats.hits = reg.cache_stats.hits ∧
    (evictLeastUsed reg).cache_stats.misses = reg.cache_stats.misses ∧
    (evictLeastUsed reg).cache_stats.total_loaded =
      reg.cache_stats.total_loaded := by
  unfold evictLeastUsed
  rw [hkeys]
  dsimp only []
  refine ⟨rfl, ?_, rfl, rfl, rfl, rfl⟩
  intro k
  rw [updateModelInfo_lookup]

/-- One load_model call keeps max_cache_size intact and keeps the cache
within the bound, provided the bound is positive and held before the call. -/
theorem loadModel_cache_bound_step (env : Env) (reg : Registry) (mid : String)
    (hmax : 1 ≤ reg.max_cache_size)
    (hlen : reg.model_cache.length ≤ reg.max_cache_size) :
    (loadModel env reg mid).2.max_cache_size = reg.max_cache_size ∧
    (loadModel env reg mid).2.model_cache.length ≤ reg.max_cache_size := by
  unfold loadModel
  cases hm : alistLookup reg.models mid with
  | none => exact ⟨rfl, hlen⟩
  | some mi =>
      dsimp only []
      cases hc : alistLookup reg.model_cache mid with
      | some h => exact ⟨rfl, hlen⟩
      | none =>
          dsimp only []
          by_cases hb : (mi.backend = .builtin ∨ mi.backend = .opencv)
          · rw [if_pos hb]; exact ⟨rfl, hlen⟩
          · rw [if_neg hb]
            by_cases hpt : env.pytorch_available = false
            · rw [if_pos hpt]; exact ⟨rfl, hlen⟩
            · rw [if_neg hpt]
              by_cases hst : mi.status ≠ ModelStatus.available
              · rw [if_pos hst]; exact ⟨rfl, hlen⟩
              · rw [if_neg hst]
                by_cases hka : knownTorchArchitecture mid = false
                · rw [if_pos hka]; exact ⟨rfl, hlen⟩
                · rw [if_neg hka]
                  by_cases hok : env.torch_load_ok mid = false
                  · rw [if_pos hok]; exact ⟨rfl, hlen⟩
                  · rw [if_neg hok]
                    simp only [updateModelInfo_max_cache_size,
                      updateModelInfo_model_cache]
                    by_cases hly :
                        reg.max_cache_size ≤ reg.model_cache.length
                    · rw [if_pos hly]
                      cases hkeys : alistKeys reg.model_cache with
                      | nil =>
                          exfalso
                          have : reg.model_cache = [] := by
                            cases hcv : reg.model_cache with
                            | nil => rfl
                            | cons q qs =>
                                rw [hcv] at hkeys
                                cases hkeys
                          rw [this] at hly
                          simp at hly
                          omega
                      | cons kh kt =>
                          set reg2 := updateModelInfo
                            { reg with cache_stats :=
                                { reg.cache_stats with
                                  misses := reg.cache_stats.misses + 1 } }
                            mid (fun m => { m with status := .loading })
                            with hreg2
                          have hkeys2 : alistKeys reg2.model_cache = kh :: kt :=
                            hkeys
                          obtain ⟨hcache, _, _, _, _, _⟩ :=
                            evict_spec reg2 kh kt hkeys2
                          constructor
                          · rw [evict_max_cache_size]
                            rfl
                          · have hlru : pyFoldMin (lruKeyOf reg2) kh kt ∈
                                alistKeys reg.model_cache := by
                              rw [hkeys]
                              rcases pyFoldMin_eq_or_mem (lruKeyOf reg2) kt kh
                                with h1 | h1
                              · rw [h1]; exact List.mem_cons_self _ _
                              · exact List.mem_cons_of_mem _ h1
                            have hne :=
                              alistLookup_ne_none_of_mem_keys
                                reg.model_cache _ hlru
                            have herase :=
                              alistErase_length_lt reg.model_cache
                                (pyFoldMin (lruKeyOf reg2) kh kt) hne
                            have hmid2 : alistLookup
                                (alistErase reg.model_cache
                                  (pyFoldMin (lruKeyOf reg2) kh kt)) mid =
                                none :=
                              alistLookup_erase_of_none reg.model_cache _ mid hc
                            show (alistInsert (evictLeastUsed reg2).model_cache
                                mid (Handle.torch
                                  (evictLeastUsed reg2).next_obj)).length ≤
                              reg.max_cache_size
                            rw [hcache]
                            rw [show reg2.model_cache = reg.model_cache
                              from rfl]
                            rw [alistInsert_length_of_not_mem _ _ _ hmid2]
                            omega
                    · rw [if_neg hly]
                      constructor
                      · rfl
                      · show (alistInsert reg.model_cache mid
                            (Handle.torch reg.next_obj)).length ≤
                          reg.max_cache_size
                        rw [alistInsert_length_of_not_mem _ _ _ hc]
                        omega

/-- C6: starting from a fresh registry, after any sequence of load_model
calls the cache never holds more than max_cache_size (= 5) entries; since the
sequence is arbitrary, the bound holds after every call of any sequence. -/
theorem c6_cache_bound (env : Env) (mids : List String) :
    (runLoads env mids).model_cache.length ≤
      (runLoads env mids).max_cache_size ∧
    (runLoads env mids).max_cache_size = 5 := by
  have main : ∀ (l : List String) (reg : Registry),
      reg.model_cache.length ≤ reg.max_cache_size →
      1 ≤ reg.max_cache_size →
      ((l.foldl (fun r mid => (loadModel env r mid).2) reg).model_cache.length
          ≤ (l.foldl (fun r mid => (loadModel env r mid).2)
              reg).max_cache_size ∧
        (l.foldl (fun r mid => (loadModel env r mid).2) reg).max_cache_size =
          reg.max_cache_size) := by
    intro l
    induction l with
    | nil => intro reg h1 h2; exact ⟨h1, rfl⟩
    | cons mid rest ih =>
        intro reg h1 h2
        obtain ⟨s1, s2⟩ := loadModel_cache_bound_step env reg mid h2 h1
        obtain ⟨t1, t2⟩ := ih (loadModel env reg mid).2 (by rw [s1]; exact s2)
          (by rw [s1]; exact h2)
        rw [List.foldl_cons]
        exact ⟨t1, by rw [t2, s1]⟩
  have base1 : (mkRegistry env).model_cache.length ≤
      (mkRegistry env).max_cache_size := by
    show (0 : Nat) ≤ 5
    omega
  have base2 : (1 : Nat) ≤ (mkRegistry env).max_cache_size := by
    show (1 : Nat) ≤ 5
    omega
  obtain ⟨t1, t2⟩ := main mids (mkRegistry env) base1 base2
  exact ⟨t1, t2⟩

theorem alistLookup_eq_none_of_not_mem_keys {α : Type}
    (l : List (String × α)) (k : String) (h : k ∉ alistKeys l) :
    alistLookup l k = none := by
  induction l with
  | nil => rfl
  | cons p rest ih =>
      obtain ⟨k1, v⟩ := p
      have h1 : k1 ≠ k := by
        intro he
        exact h (by rw [he]; exact List.mem_cons_self _ _)
      have h2 : k ∉ alistKeys rest :=
        fun hx => h (List.mem_cons_of_mem _ hx)
      simp only [alistLookup, h1, if_false]
      exact ih h2

theorem alistErase_of_lookup_none {α : Type} (l : List (String × α))
    (k : String) (h : alistLookup l k = none) : alistErase l k = l := by
  induction l with
  | nil => rfl
  | cons p rest ih =>
      obtain ⟨k1, v⟩ := p
      unfold alistLookup at h
      by_cases h1 : k1 = k
      · rw [if_pos h1] at h; cases h
      · rw [if_neg h1] at h
        simp only [alistErase, h1, if_false]
        rw [ih h]

theorem alistErase_length_nodup {α : Type} (l : List (String × α))
    (k : String) (hnd : (alistKeys l).Nodup)
    (h : alistLookup l k ≠ none) :
    (alistErase l k).length + 1 = l.length := by
  induction l with
  | nil => simp [alistLookup] at h
  | cons p rest ih =>
      obtain ⟨k1, v⟩ := p
      have hnd2 := hnd
      rw [show alistKeys ((k1, v) :: rest) = k1 :: alistKeys rest from rfl,
        List.nodup_cons] at hnd2
      obtain ⟨hk1, hndr⟩ := hnd2
      unfold alistLookup at h
      by_cases h1 : k1 = k
      · have hnone : alistLookup rest k = none := by
          apply alistLookup_eq_none_of_not_mem_keys
          rw [← h1]
          exact hk1
        simp only [alistErase, h1, if_true]
        rw [show k = k from rfl] at hnone
        rw [alistErase_of_lookup_none rest k hnone]
        simp
      · rw [if_neg h1] at h
        simp only [alistErase, h1, if_false]
        simp only [List.length_cons]
        rw [← ih hndr h]

theorem pyFoldMin_congr (f g : String → Option Nat)
    (hfg : ∀ x, f x = g x) :
    ∀ (l : List String) (acc : String), pyFoldMin f acc l = pyFoldMin g acc l := by
  intro l
  induction l with
  | nil => intro acc; rfl
  | cons y ys ih =>
      intro acc
      simp only [pyFoldMin, hfg]
      exact ih _

/-- The first-minimum property over the whole nonempty key list: every key
strictly before the scan winner has a strictly larger key value. -/
theorem pyFoldMin_first_full (f : String → Option Nat) (kh : String)
    (kt : List String) :
    ∀ y ∈ (kh :: kt).takeWhile (fun z => z ≠ pyFoldMin f kh kt),
      optLt (f (pyFoldMin f kh kt)) (f y) = true := by
  by_cases hL : pyFoldMin f kh kt = kh
  · intro y hy
    rw [List.takeWhile_cons] at hy
    simp [hL] at hy
  · obtain ⟨hm, hlt, hfirst⟩ := pyFoldMin_first f kt kh hL
    intro y hy
    rw [List.takeWhile_cons] at hy
    have hkh : (kh ≠ pyFoldMin f kh kt) := fun he => hL he.symm
    rcases List.mem_cons.mp (by simpa [hkh] using hy) with rfl | hy2
    · exact hlt
    · exact hfirst y (by simpa using hy2)

/-- The LRU key of every id is unchanged by a descriptor update that keeps
last_used, and reads only the models table. -/
theorem lruKeyOf_update (reg : Registry) (mid : String)
    (f : ModelInfo → ModelInfo) (hf : ∀ m, (f m).last_used = m.last_used)
    (k : String) :
    lruKeyOf (updateModelInfo reg mid f) k = lruKeyOf reg k := by
  unfold lruKeyOf
  rw [updateModelInfo_lookup]
  cases alistLookup reg.models k with
  | none => rfl
  | some m =>
      by_cases hk : k = mid <;> simp [hk, hf]

/-- C7: when the cache is at capacity and a new distinct pytorch model loads
successfully, exactly one prior entry is removed — the cached id whose
descriptor has the oldest (or absent) last_used timestamp, ties broken by the
first such id in cache iteration order; the evicted descriptor's status is
reset to available (never not_found or error) and the evictions counter
advances by exactly one. -/
theorem c7_eviction_lru (env : Env) (reg : Registry) (mid : String)
    (mi : ModelInfo) (kh : String) (kt : List String)
    (hm : alistLookup reg.models mid = some mi)
    (hb : mi.backend = .pytorch)
    (hpt : env.pytorch_available = true)
    (hst : mi.status = .available)
    (hka : knownTorchArchitecture mid = true)
    (hok : env.torch_load_ok mid = true)
    (hc : alistLookup reg.model_cache mid = none)
    (hkeys : alistKeys reg.model_cache = kh :: kt)
    (hcap : reg.max_cache_size ≤ reg.model_cache.length)
    (hnodup : (alistKeys reg.model_cache).Nodup) :
    pyFoldMin (lruKeyOf reg) kh kt ∈ alistKeys reg.model_cache ∧
    (∀ y ∈ alistKeys reg.model_cache,
      optLe (lruKeyOf reg (pyFoldMin (lruKeyOf reg) kh kt))
        (lruKeyOf reg y) = true) ∧
    (∀ y ∈ (alistKeys reg.model_cache).takeWhile
        (fun z => z ≠ pyFoldMin (lruKeyOf reg) kh kt),
      optLt (lruKeyOf reg (pyFoldMin (lruKeyOf reg) kh kt))
        (lruKeyOf reg y) = true) ∧
    (loadModel env reg mid).2.model_cache =
      alistInsert
        (alistErase reg.model_cache (pyFoldMin (lruKeyOf reg) kh kt)) mid
        (Handle.torch reg.next_obj) ∧
    (loadModel env reg mid).2.model_cache.length =
      reg.model_cache.length ∧
    alistLookup (loadModel env reg mid).2.models
        (pyFoldMin (lruKeyOf reg) kh kt) =
      (alistLookup reg.models (pyFoldMin (lruKeyOf reg) kh kt)).map
        (fun m => { m with status := ModelStatus.available }) ∧
    (loadModel env reg mid).2.cache_stats.evictions =
      reg.cache_stats.evictions + 1 := by
  have hmemL : pyFoldMin (lruKeyOf reg) kh kt ∈ alistKeys reg.model_cache := by
    rw [hkeys]
    rcases pyFoldMin_eq_or_mem (lruKeyOf reg) kt kh with h1 | h1
    · rw [h1]; exact List.mem_cons_self _ _
    · exact List.mem_cons_of_mem _ h1
  have hle : ∀ y ∈ alistKeys reg.model_cache,
      optLe (lruKeyOf reg (pyFoldMin (lruKeyOf reg) kh kt))
        (lruKeyOf reg y) = true := by
    intro y hy
    rw [hkeys] at hy
    obtain ⟨h1, h2⟩ := pyFoldMin_le (lruKeyOf reg) kt kh
    rcases List.mem_cons.mp hy with rfl | hy2
    · exact h1
    · exact h2 y hy2
  have hfirstL : ∀ y ∈ (alistKeys reg.model_cache).takeWhile
      (fun z => z ≠ pyFoldMin (lruKeyOf reg) kh kt),
      optLt (lruKeyOf reg (pyFoldMin (lruKeyOf reg) kh kt))
        (lruKeyOf reg y) = true := by
    rw [hkeys]
    exact pyFoldMin_first_full (lruKeyOf reg) kh kt
  have hneL : alistLookup reg.model_cache
      (pyFoldMin (lruKeyOf reg) kh kt) ≠ none :=
    alistLookup_ne_none_of_mem_keys reg.model_cache _ hmemL
  have hLmid : pyFoldMin (lruKeyOf reg) kh kt ≠ mid := by
    intro he
    rw [he, hc] at hneL
    exact hneL rfl
  unfold loadModel
  rw [hm]
  dsimp only []
  rw [hc]
  dsimp only []
  rw [if_neg (by simp [hb] :
    ¬(mi.backend = Backend.builtin ∨ mi.backend = Backend.opencv))]
  rw [if_neg (by simp [hpt] : ¬(env.pytorch_available = false))]
  rw [if_neg (by simp [hst] : ¬(mi.status ≠ ModelStatus.available))]
  rw [if_neg (by simp [hka] : ¬(knownTorchArchitecture mid = false))]
  rw [if_neg (by simp [hok] : ¬(env.torch_load_ok mid = false))]
  simp only [updateModelInfo_max_cache_size, updateModelInfo_model_cache]
  rw [if_pos hcap]
  set reg2 := updateModelInfo
    { reg with cache_stats :=
        { reg.cache_stats with misses := reg.cache_stats.misses + 1 } }
    mid (fun m => { m with status := ModelStatus.loading }) with hreg2
  have hkeys2 : alistKeys reg2.model_cache = kh :: kt := hkeys
  obtain ⟨hcache, hmodels, hev, _, _, _⟩ := evict_spec reg2 kh kt hkeys2
  have hLkey : pyFoldMin (lruKeyOf reg2) kh kt =
      pyFoldMin (lruKeyOf reg) kh kt := by
    apply pyFoldMin_congr
    intro k
    rw [hreg2]
    exact (lruKeyOf_update
      { reg with cache_stats :=
          { reg.cache_stats with misses := reg.cache_stats.misses + 1 } }
      mid (fun m => { m with status := ModelStatus.loading })
      (fun m => rfl) k).trans rfl
  set reg3 := evictLeastUsed reg2 with hreg3
  set reg4 := { reg3 with
    next_obj := reg3.next_obj + 1
    model_cache := alistInsert reg3.model_cache mid
      (Handle.torch reg3.next_obj) } with hreg4
  set reg5 := { reg4 with clock := reg4.clock + 1 } with hreg5
  have h4 : (alistInsert reg3.model_cache mid (Handle.torch reg3.next_obj)) =
      alistInsert
        (alistErase reg.model_cache (pyFoldMin (lruKeyOf reg) kh kt)) mid
        (Handle.torch reg.next_obj) := by
    rw [hreg3, hcache, hLkey]
    rw [show reg2.model_cache = reg.model_cache from rfl]
    rw [show (evictLeastUsed reg2).next_obj = reg.next_obj from
      (evict_next_obj reg2).trans rfl]
  refine ⟨hmemL, hle, hfirstL, h4, ?_, ?_, ?_⟩
  · show (alistInsert reg3.model_cache mid
        (Handle.torch reg3.next_obj)).length = reg.model_cache.length
    rw [h4]
    rw [alistInsert_length_of_not_mem _ _ _
      (alistLookup_erase_of_none reg.model_cache _ mid hc)]
    exact alistErase_length_nodup reg.model_cache _ hnodup hneL
  · show alistLookup (updateModelInfo reg5 mid (fun m =>
        { m with status := ModelStatus.loaded, last_used := some reg4.clock,
                 load_count := m.load_count + 1 })).models
        (pyFoldMin (lruKeyOf reg) kh kt) =
      (alistLookup reg.models (pyFoldMin (lruKeyOf reg) kh kt)).map
        (fun m => { m with status := ModelStatus.available })
    rw [updateModelInfo_lookup_other _ _ _ _ hLmid]
    rw [show reg5.models = reg3.models from rfl]
    rw [hreg3, hmodels, hLkey]
    rw [show (alistLookup reg2.models (pyFoldMin (lruKeyOf reg) kh kt)) =
        alistLookup reg.models (pyFoldMin (lruKeyOf reg) kh kt) from by
      rw [hreg2, updateModelInfo_lookup_other _ _ _ _ hLmid]]
    cases alistLookup reg.models (pyFoldMin (lruKeyOf reg) kh kt) <;> simp
  · show (updateModelInfo reg5 mid (fun m =>
        { m with status := ModelStatus.loaded, last_used := some reg4.clock,
                 load_count := m.load_count + 1 })).cache_stats.evictions =
      reg.cache_stats.evictions + 1
    rw [updateModelInfo_cache_stats]
    rw [show reg5.cache_stats = reg3.cache_stats from rfl]
    rw [hreg3, hev]
    rfl

/-- A registry whose cache has been filled to capacity with five pytorch
models, in the all-available environment. -/
def regFive : Registry :=
  runLoads envAll
    ["midas_v21", "dpt_hybrid", "zoedepth", "depth_anything", "depth_leres"]

/-- The network-bsds500 (HED) descriptor probed in the all-available
environment. -/
def hedProbed : ModelInfo :=
  checkOne envAll
    { id := "network-bsds500", name := "HED Edge Detection",
      file_path := prep "network-bsds500.pth",
      processor_type := .edgeDetection, backend := .pytorch,
      fallback_models := ["opencv_canny", "builtin_canny"] }

/-- Witness for C7 at a concrete input: loading a sixth pytorch model into a
cache already holding five evicts exactly midas_v21, the least recently used
entry. -/
theorem c7_eviction_lru_witness :
    (alistLookup regFive.models "network-bsds500" = some hedProbed) ∧
    (hedProbed.backend = .pytorch) ∧
    (envAll.pytorch_available = true) ∧
    (hedProbed.status = .available) ∧
    (knownTorchArchitecture "network-bsds500" = true) ∧
    (envAll.torch_load_ok "network-bsds500" = true) ∧
    (alistLookup regFive.model_cache "network-bsds500" = none) ∧
    (alistKeys regFive.model_cache = "midas_v21" ::
      ["dpt_hybrid", "zoedepth", "depth_anything", "depth_leres"]) ∧
    (regFive.max_cache_size ≤ regFive.model_cache.length) ∧
    ((alistKeys regFive.model_cache).Nodup) ∧
    (pyFoldMin (lruKeyOf regFive) "midas_v21"
        ["dpt_hybrid", "zoedepth", "depth_anything", "depth_leres"] ∈
      alistKeys regFive.model_cache ∧
     (∀ y ∈ alistKeys regFive.model_cache,
       optLe (lruKeyOf regFive (pyFoldMin (lruKeyOf regFive) "midas_v21"
           ["dpt_hybrid", "zoedepth", "depth_anything", "depth_leres"]))
         (lruKeyOf regFive y) = true) ∧
     (∀ y ∈ (alistKeys regFive.model_cache).takeWhile
         (fun z => z ≠ pyFoldMin (lruKeyOf regFive) "midas_v21"
           ["dpt_hybrid", "zoedepth", "depth_anything", "depth_leres"]),
       optLt (lruKeyOf regFive (pyFoldMin (lruKeyOf regFive) "midas_v21"
           ["dpt_hybrid", "zoedepth", "depth_anything", "depth_leres"]))
         (lruKeyOf regFive y) = true) ∧
     (loadModel envAll regFive "network-bsds500").2.model_cache =
       alistInsert
         (alistErase regFive.model_cache
           (pyFoldMin (lruKeyOf regFive) "midas_v21"
             ["dpt_hybrid", "zoedepth", "depth_anything", "depth_leres"]))
         "network-bsds500" (Handle.torch regFive.next_obj) ∧
     (loadModel envAll regFive "network-bsds500").2.model_cache.length =
       regFive.model_cache.length ∧
     alistLookup (loadModel envAll regFive "network-bsds500").2.models
         (pyFoldMin (lruKeyOf regFive) "midas_v21"
           ["dpt_hybrid", "zoedepth", "depth_anything", "depth_leres"]) =
       (alistLookup regFive.models
           (pyFoldMin (lruKeyOf regFive) "midas_v21"
             ["dpt_hybrid", "zoedepth", "depth_anything", "depth_leres"])).map
         (fun m => { m with status := ModelStatus.available }) ∧
     (loadModel envAll regFive "network-bsds500").2.cache_stats.evictions =
       regFive.cache_stats.evictions + 1) :=
  ⟨by decide, by decide, by decide, by decide, by decide, by decide,
   by decide, by decide, by decide, by decide,
   c7_eviction_lru envAll regFive "network-bsds500" hedProbed "midas_v21"
     ["dpt_hybrid", "zoedepth", "depth_anything", "depth_leres"]
     (by decide) (by decide) (by decide) (by decide) (by decide) (by decide)
     (by decide) (by decide) (by decide) (by decide)⟩

theorem checkOne_backend (env : Env) (mi : ModelInfo) :
    (checkOne env mi).backend = mi.backend := by
  by_cases hb : (mi.backend = .builtin ∨ mi.backend = .opencv)
  · simp [checkOne, hb]
  · cases hfp : mi.file_path with
    | none => simp [checkOne, hb, hfp]
    | some fp =>
        by_cases hd : env.file_on_disk fp = true
        · simp [checkOne, hb, hfp, hd]
        · have hd2 : env.file_on_disk fp = false := Bool.eq_false_iff.mpr hd
          simp [checkOne, hb, hfp, hd2]

theorem backend_map_update (reg : Registry) (mid : String)
    (f : ModelInfo → ModelInfo) (hf : ∀ m, (f m).backend = m.backend)
    (k : String) :
    (alistLookup (updateModelInfo reg mid f).models k).map
        (fun m => m.backend) =
      (alistLookup reg.models k).map (fun m => m.backend) := by
  rw [updateModelInfo_lookup]
  cases alistLookup reg.models k <;> by_cases hk : k = mid <;> simp [hk, hf]

theorem evict_backend_preserved (reg : Registry) (k : String) :
    (alistLookup (evictLeastUsed reg).models k).map (fun m => m.backend) =
      (alistLookup reg.models k).map (fun m => m.backend) := by
  unfold evictLeastUsed
  cases alistKeys reg.model_cache with
  | nil => rfl
  | cons kh kt =>
      dsimp only []
      refine (backend_map_update _ _ _ ?_ k).trans ?_
      · intro m; rfl
      · rfl

/-- load_model never changes the declared backend of any descriptor. -/
theorem loadModel_backend_preserved (env : Env) (reg : Registry)
    (mid : String) (k : String) :
    (alistLookup (loadModel env reg mid).2.models k).map
        (fun m => m.backend) =
      (alistLookup reg.models k).map (fun m => m.backend) := by
  unfold loadModel
  cases hm : alistLookup reg.models mid with
  | none => rfl
  | some mi =>
      dsimp only []
      cases hc : alistLookup reg.model_cache mid with
      | some h =>
          dsimp only []
          refine (backend_map_update _ _ _ ?_ k).trans ?_
          · intro m; rfl
          · rfl
      | none =>
          dsimp only []
          by_cases hb : (mi.backend = .builtin ∨ mi.backend = .opencv)
          · rw [if_pos hb]
            refine (backend_map_update _ _ _ ?_ k).trans ?_
            · intro m; rfl
            · rfl
          · rw [if_neg hb]
            by_cases hpt : env.pytorch_available = false
            · rw [if_pos hpt]
            · rw [if_neg hpt]
              by_cases hst : mi.status ≠ ModelStatus.available
              · rw [if_pos hst]
              · rw [if_neg hst]
                by_cases hka : knownTorchArchitecture mid = false
                · rw [if_pos hka]
                  refine (backend_map_update _ _ _ ?_ k).trans ?_
                  · intro m; rfl
                  refine (backend_map_update _ _ _ ?_ k).trans ?_
                  · intro m; rfl
                  rfl
                · rw [if_neg hka]
                  by_cases hok : env.torch_load_ok mid = false
                  · rw [if_pos hok]
                    refine (backend_map_update _ _ _ ?_ k).trans ?_
                    · intro m; rfl
                    refine (backend_map_update _ _ _ ?_ k).trans ?_
                    · intro m; rfl
                    rfl
                  · rw [if_neg hok]
                    simp only [updateModelInfo_max_cache_size,
                      updateModelInfo_model_cache]
                    by_cases hly :
                        reg.max_cache_size ≤ reg.model_cache.length
                    · rw [if_pos hly]
                      refine (backend_map_update _ _ _ ?_ k).trans ?_
                      · intro m; rfl
                      dsimp only []
                      refine (evict_backend_preserved _ k).trans ?_
                      refine (backend_map_update _ _ _ ?_ k).trans ?_
                      · intro m; rfl
                      rfl
                    · rw [if_neg hly]
                      refine (backend_map_update _ _ _ ?_ k).trans ?_
                      · intro m; rfl
                      dsimp only []
                      refine (backend_map_update _ _ _ ?_ k).trans ?_
                      · intro m; rfl
                      rfl

theorem alistKeys_insert_cases {α : Type} (l : List (String × α))
    (k0 k : String) (v : α) (h : k ∈ alistKeys (alistInsert l k0 v)) :
    k = k0 ∨ k ∈ alistKeys l := by
  induction l with
  | nil =>
      rcases List.mem_cons.mp h with h1 | h1
      · exact Or.inl h1
      · cases h1
  | cons p rest ih =>
      obtain ⟨k1, v1⟩ := p
      by_cases h1 : k1 = k0
      · rw [show alistInsert ((k1, v1) :: rest) k0 v =
            (k1, v) :: rest from by simp [alistInsert, h1]] at h
        rcases List.mem_cons.mp h with h2 | h2
        · exact Or.inr (by rw [h2]; exact List.mem_cons_self _ _)
        · exact Or.inr (List.mem_cons_of_mem _ h2)
      · rw [show alistInsert ((k1, v1) :: rest) k0 v =
            (k1, v1) :: alistInsert rest k0 v from by
          simp [alistInsert, h1]] at h
        rcases List.mem_cons.mp h with h2 | h2
        · exact Or.inr (by rw [h2]; exact List.mem_cons_self _ _)
        · rcases ih h2 with h3 | h3
          · exact Or.inl h3
          · exact Or.inr (List.mem_cons_of_mem _ h3)

theorem alistKeys_erase_subset {α : Type} (l : List (String × α))
    (k0 k : String) (h : k ∈ alistKeys (alistErase l k0)) :
    k ∈ alistKeys l := by
  induction l with
  | nil => cases h
  | cons p rest ih =>
      obtain ⟨k1, v1⟩ := p
      by_cases h1 : k1 = k0
      · rw [show alistErase ((k1, v1) :: rest) k0 =
            alistErase rest k0 from by simp [alistErase, h1]] at h
        exact List.mem_cons_of_mem _ (ih h)
      · rw [show alistErase ((k1, v1) :: rest) k0 =
            (k1, v1) :: alistErase rest k0 from by simp [alistErase, h1]] at h
        rcases List.mem_cons.mp h with h2 | h2
        · rw [h2]; exact List.mem_cons_self _ _
        · exact List.mem_cons_of_mem _ (ih h2)

theorem evict_keys_subset (reg : Registry) (k : String)
    (h : k ∈ alistKeys (evictLeastUsed reg).model_cache) :
    k ∈ alistKeys reg.model_cache := by
  unfold evictLeastUsed at h
  cases hkeys : alistKeys reg.model_cache with
  | nil =>
      rw [hkeys] at h
      dsimp only [] at h
      exact hkeys ▸ h
  | cons kh kt =>
      rw [hkeys] at h
      dsimp only [] at h
      rw [updateModelInfo_model_cache] at h
      exact hkeys ▸ alistKeys_erase_subset reg.model_cache _ k h

/-- Any id present in the cache after a load_model call was either already
cached or is the requested id, and in the latter case its architecture is
known to the load chain and its descriptor exists. -/
theorem loadModel_cache_keys (env : Env) (reg : Registry) (mid : String)
    (k : String)
    (hk : k ∈ alistKeys (loadModel env reg mid).2.model_cache) :
    k ∈ alistKeys reg.model_cache ∨
      (k = mid ∧ knownTorchArchitecture mid = true ∧
       ∃ mi, alistLookup reg.models mid = some mi) := by
  revert hk
  unfold loadModel
  cases hm : alistLookup reg.models mid with
  | none => intro hk; exact Or.inl hk
  | some mi =>
      dsimp only []
      cases hc : alistLookup reg.model_cache mid with
      | some h =>
          dsimp only []
          intro hk
          exact Or.inl hk
      | none =>
          dsimp only []
          by_cases hb : (mi.backend = .builtin ∨ mi.backend = .opencv)
          · rw [if_pos hb]; intro hk; exact Or.inl hk
          · rw [if_neg hb]
            by_cases hpt : env.pytorch_available = false
            · rw [if_pos hpt]; intro hk; exact Or.inl hk
            · rw [if_neg hpt]
              by_cases hst : mi.status ≠ ModelStatus.available
              · rw [if_pos hst]; intro hk; exact Or.inl hk
              · rw [if_neg hst]
                by_cases hka : knownTorchArchitecture mid = false
                · rw [if_pos hka]; intro hk; exact Or.inl hk
                · rw [if_neg hka]
                  have hka2 : knownTorchArchitecture mid = true := by
                    revert hka
                    cases knownTorchArchitecture mid <;> simp
                  by_cases hok : env.torch_load_ok mid = false
                  · rw [if_pos hok]; intro hk; exact Or.inl hk
                  · rw [if_neg hok]
                    simp only [updateModelInfo_max_cache_size,
                      updateModelInfo_model_cache]
                    by_cases hly :
                        reg.max_cache_size ≤ reg.model_cache.length
                    · rw [if_pos hly]
                      intro hk
                      rcases alistKeys_insert_cases _ _ _ _ hk with h1 | h1
                      · exact Or.inr ⟨h1, hka2, mi, rfl⟩
                      · have h2 := evict_keys_subset _ k h1
                        rw [updateModelInfo_model_cache] at h2
                        exact Or.inl h2
                    · rw [if_neg hly]
                      intro hk
                      rcases alistKeys_insert_cases _ _ _ _ hk with h1 | h1
                      · exact Or.inr ⟨h1, hka2, mi, rfl⟩
                      · exact Or.inl h1

/-- Every id the architecture chain can construct has the pytorch backend in
the shipped catalog. -/
theorem catalog_known_pytorch :
    ∀ p ∈ initialModels,
      knownTorchArchitecture p.1 = true → p.2.backend = Backend.pytorch := by
  decide

/-- The declared backends of all descriptors are unchanged by any sequence of
load_model calls on a fresh registry. -/
theorem loads_backend_stable (env : Env) (l : List String) (k : String) :
    (alistLookup (runLoads env l).models k).map (fun m => m.backend) =
      (alistLookup (mkRegistry env).models k).map (fun m => m.backend) := by
  suffices h : ∀ (l2 : List String) (regs : Registry) (k2 : String),
      (alistLookup (l2.foldl (fun r mid => (loadModel env r mid).2)
          regs).models k2).map (fun m => m.backend) =
        (alistLookup regs.models k2).map (fun m => m.backend) by
    exact h l (mkRegistry env) k
  intro l2
  induction l2 with
  | nil => intro regs k2; rfl
  | cons x rest ih =>
      intro regs k2
      rw [List.foldl_cons]
      exact (ih (loadModel env regs x).2 k2).trans
        (loadModel_backend_preserved env regs x k2)

/-- After any load sequence, a descriptor whose architecture the chain knows
still has the pytorch backend. -/
theorem loads_known_pytorch (env : Env) (l : List String) (mid : String)
    (mi : ModelInfo) (hl : alistLookup (runLoads env l).models mid = some mi)
    (hk : knownTorchArchitecture mid = true) :
    mi.backend = Backend.pytorch := by
  have h1 := loads_backend_stable env l mid
  rw [hl, mkRegistry_lookup] at h1
  cases hv : alistLookup initialModels mid with
  | none => rw [hv] at h1; cases h1
  | some mi0 =>
      rw [hv] at h1
      simp only [Option.map_some'] at h1
      have h2 := Option.some.inj h1
      rw [checkOne_backend] at h2
      rw [h2]
      exact catalog_known_pytorch (mid, mi0) (alistLookup_mem _ _ _ hv) hk

/-- After any load sequence from a fresh registry, every cached id has the
pytorch backend. -/
theorem loads_cache_pytorch (env : Env) (l : List String) (k : String)
    (hk : k ∈ alistKeys (runLoads env l).model_cache) :
    (alistLookup (runLoads env l).models k).map (fun m => m.backend) =
      some Backend.pytorch := by
  induction l using List.reverseRecOn with
  | nil => exact (List.not_mem_nil k hk).elim
  | append_singleton l2 x ih =>
      have hstep : runLoads env (l2 ++ [x]) =
          (loadModel env (runLoads env l2) x).2 := by
        unfold runLoads
        rw [List.foldl_append]
        rfl
      rw [hstep] at hk ⊢
      rw [loadModel_backend_preserved]
      rcases loadModel_cache_keys env (runLoads env l2) x k hk with
        h1 | ⟨rfl, hka2, mi, hmi⟩
      · exact ih (by exact h1)
      · rw [hmi]
        simp only [Option.map_some']
        rw [loads_known_pytorch env l2 k mi hmi hka2]

/-- C10: the model cache only ever contains native-compute (pytorch) models:
after any load sequence from a fresh registry every cached id has the pytorch
backend, and a load_model call for a builtin- or opencv-backed model is
always a miss — it bumps the misses counter, leaves the hits counter and the
cache untouched, and returns a freshly constructed sentinel handle. -/
theorem c10_cache_pytorch_only (env : Env) (mids : List String) :
    (∀ k ∈ alistKeys (runLoads env mids).model_cache,
       (alistLookup (runLoads env mids).models k).map (fun m => m.backend) =
         some Backend.pytorch) ∧
    (∀ mid mi, alistLookup (runLoads env mids).models mid = some mi →
       (mi.backend = .builtin ∨ mi.backend = .opencv) →
       ((loadModel env (runLoads env mids) mid).1 =
          .ok (.sentinel (mi.backend.value ++ "_processor")) ∧
        (loadModel env (runLoads env mids) mid).2.model_cache =
          (runLoads env mids).model_cache ∧
        (loadModel env (runLoads env mids) mid).2.cache_stats.hits =
          (runLoads env mids).cache_stats.hits ∧
        (loadModel env (runLoads env mids) mid).2.cache_stats.misses =
          (runLoads env mids).cache_stats.misses + 1)) := by
  refine ⟨fun k hk => loads_cache_pytorch env mids k hk, ?_⟩
  intro mid mi hl hbo
  have hnotin : alistLookup (runLoads env mids).model_cache mid = none := by
    by_cases hmem : mid ∈ alistKeys (runLoads env mids).model_cache
    · exfalso
      have hpy := loads_cache_pytorch env mids mid hmem
      rw [hl] at hpy
      simp only [Option.map_some'] at hpy
      rcases hbo with h | h <;> rw [h] at hpy <;> simp at hpy
    · exact alistLookup_eq_none_of_not_mem_keys _ _ hmem
  exact loadModel_builtin_sentinel env _ mid mi hl hnotin hbo

/-- Witness for C10 at a concrete input: after loading midas_v21, the cache
holds only pytorch-backed ids, and a load of the opencv-backed opencv_canny
is a miss returning the opencv sentinel. -/
theorem c10_cache_pytorch_only_witness :
    (alistLookup (runLoads envAll ["midas_v21"]).models "opencv_canny" =
       some (checkOne envAll
         { id := "opencv_canny", name := "OpenCV Canny",
           processor_type := .edgeDetection, backend := .opencv,
           fallback_models := ["builtin_canny"] })) ∧
    ((checkOne envAll
         { id := "opencv_canny", name := "OpenCV Canny",
           processor_type := .edgeDetection, backend := .opencv,
           fallback_models := ["builtin_canny"] }).backend = .builtin ∨
     (checkOne envAll
         { id := "opencv_canny", name := "OpenCV Canny",
           processor_type := .edgeDetection, backend := .opencv,
           fallback_models := ["builtin_canny"] }).backend = .opencv) ∧
    ((loadModel envAll (runLoads envAll ["midas_v21"]) "opencv_canny").1 =
       .ok (.sentinel ((checkOne envAll
         { id := "opencv_canny", name := "OpenCV Canny",
           processor_type := .edgeDetection, backend := .opencv,
           fallback_models := ["builtin_canny"] }).backend.value ++
           "_processor")) ∧
     (loadModel envAll (runLoads envAll ["midas_v21"])
         "opencv_canny").2.model_cache =
       (runLoads envAll ["midas_v21"]).model_cache ∧
     (loadModel envAll (runLoads envAll ["midas_v21"])
         "opencv_canny").2.cache_stats.hits =
       (runLoads envAll ["midas_v21"]).cache_stats.hits ∧
     (loadModel envAll (runLoads envAll ["midas_v21"])
         "opencv_canny").2.cache_stats.misses =
       (runLoads envAll ["midas_v21"]).cache_stats.misses + 1) :=
  ⟨by decide, by decide,
   (c10_cache_pytorch_only envAll ["midas_v21"]).2 "opencv_canny"
     (checkOne envAll
       { id := "opencv_canny", name := "OpenCV Canny",
         processor_type := .edgeDetection, backend := .opencv,
         fallback_models := ["builtin_canny"] })
     (by decide) (by decide)⟩

end CubeStudio
